import Mathlib

/-!
# Verification of the `smart_climate` dual-stage climate controller

Shallow embedding of `custom_components/smart_climate/climate.py`.

Temperatures are modelled as rationals (`ℚ`).  A sensor reading that is
absent, `unknown`/`unavailable`, or unparseable is modelled as `none`.
Device commands are the `climate.set_hvac_mode` / `climate.set_temperature`
service calls issued by the entity.  An `await`ed service call that raises is
modelled by a failure oracle on commands: a failing call aborts the rest of
the handler (the exception propagates out of `_apply_temperature`), which the
step result records with `ok = false`.
-/

namespace SmartClimate

/-- HVAC modes used by the controller (`HVACMode.OFF/HEAT/COOL`). -/
inductive HVACMode where
  | off
  | heat
  | cool
deriving DecidableEq, Repr

/-- A service call issued to a device, as in `_set_effective_main_hvac_mode`,
`_set_effective_main_temperature` and `_set_effective_secondary`. -/
inductive Command where
  | setHvacMode (entityId : String) (mode : HVACMode)
  | setTemperature (entityId : String) (temperature : ℚ)
deriving DecidableEq, Repr

/-- The `entity_id` a command is addressed to. -/
def Command.entityId : Command → String
  | .setHvacMode e _ => e
  | .setTemperature e _ => e

/-- Immutable configuration of a `SmartClimate` entity (`__init__`).
The indoor sensor id is omitted because readings enter through `TickInput`;
for the outdoor sensor only configured-ness matters
(`if self._outdoor_sensor:`), but the id is kept. -/
structure Config where
  mainClimate : String
  secondaryClimate : Option String
  outdoorSensor : Option String
  primaryThreshold : ℚ
  secondaryThreshold : ℚ
  outdoorHotThreshold : ℚ
  minRuntime : ℚ
  primaryOffset : ℚ
  secondaryOffset : ℚ
  heatingPresets : String → Option (Option ℚ)
  coolingPresets : String → Option (Option ℚ)

/-- Mutable entity state (the `self._attr_*` / `self._last_*` fields). -/
structure State where
  targetTemperature : Option ℚ
  currentTemperature : Option ℚ
  presetMode : String
  lastMainMode : HVACMode
  lastMainTemp : Option ℚ
  lastSecondaryMode : HVACMode
  lastSecondaryTemp : Option ℚ
  lastSwitchTime : ℚ
deriving DecidableEq, Repr

/-- Environment of one handler invocation: the indoor and outdoor sensor
readings (`none` = unavailable/unparseable), the wall clock `now()`, and the
failure oracle telling which service calls raise. -/
structure TickInput where
  sensorReading : Option ℚ
  outdoorReading : Option ℚ
  now : ℚ
  fails : Command → Bool

/-- Result of one handler invocation: the state after it, the service calls
attempted (in order, including a final failing one), and whether the handler
returned normally (`ok = true`) or an exception escaped it (`ok = false`). -/
structure StepResult where
  state : State
  commands : List Command
  ok : Bool
deriving Repr

/-- One `await`ed service call: either it raises — aborting the handler with
the state as it is at that point — or the continuation runs. -/
def attempt (inp : TickInput) (st : State) (c : Command) (acc : List Command)
    (k : List Command → StepResult) : StepResult :=
  if inp.fails c then ⟨st, acc ++ [c], false⟩ else k (acc ++ [c])

/-- Lines 317–346 of `_apply_temperature`: effective mode and error
magnitude `diff` from current/target temperature, the primary threshold and
the (optional) outdoor reading. -/
def computeEffectiveMode (cfg : Config) (current target : ℚ)
    (outdoorReading : Option ℚ) : HVACMode × ℚ :=
  if current < target - cfg.primaryThreshold then
    (HVACMode.heat, target - current)
  else if current > target + cfg.primaryThreshold then
    let diff := current - target
    match cfg.outdoorSensor with
    | some _ =>
      match outdoorReading with
      | some outdoorTemp =>
        if outdoorTemp ≥ cfg.outdoorHotThreshold then (HVACMode.cool, diff)
        else (HVACMode.off, diff)
      | none => (HVACMode.off, diff)
    | none => (HVACMode.cool, diff)
  else
    (HVACMode.off, 0)

/-- Line 371: `effective_mode if diff > self._secondary_threshold else OFF`. -/
def secondaryModeFor (cfg : Config) (effectiveMode : HVACMode) (diff : ℚ) :
    HVACMode :=
  if diff > cfg.secondaryThreshold then effectiveMode else HVACMode.off

/-- Lines 381–382: record the tick time whenever the primary mode is active. -/
def commitSwitchTime (st : State) (inp : TickInput) (acc : List Command)
    (effectiveMode : HVACMode) : StepResult :=
  if effectiveMode ≠ HVACMode.off then
    ⟨{ st with lastSwitchTime := inp.now }, acc, true⟩
  else ⟨st, acc, true⟩

/-- `_set_effective_secondary` (lines 400–416), for a configured secondary
device `dev` (both call sites guard on `is not None`, and the function's own
early return repeats that guard): a `set_temperature` call if the mode is
active and a temperature is given, then always a `set_hvac_mode` call. -/
def sendSecondary (inp : TickInput) (st : State) (dev : String)
    (mode : HVACMode) (temp : Option ℚ) (acc : List Command)
    (k : List Command → StepResult) : StepResult :=
  match temp with
  | some t =>
    if mode ≠ HVACMode.off then
      attempt inp st (Command.setTemperature dev t) acc (fun acc1 =>
        attempt inp st (Command.setHvacMode dev mode) acc1 k)
    else
      attempt inp st (Command.setHvacMode dev mode) acc k
  | none =>
    attempt inp st (Command.setHvacMode dev mode) acc k

/-- Lines 369–379 followed by 381–382: secondary commit then runtime
bookkeeping. -/
def commitSecondary (cfg : Config) (st : State) (inp : TickInput)
    (acc : List Command) (effectiveMode : HVACMode) (diff target : ℚ) :
    StepResult :=
  match cfg.secondaryClimate with
  | some dev =>
    let secondaryEffectiveMode := secondaryModeFor cfg effectiveMode diff
    let secondaryTemp : Option ℚ :=
      if secondaryEffectiveMode ≠ HVACMode.off then
        some (target + cfg.secondaryOffset)
      else none
    if secondaryEffectiveMode ≠ st.lastSecondaryMode ∨
        secondaryTemp ≠ st.lastSecondaryTemp then
      sendSecondary inp st dev secondaryEffectiveMode secondaryTemp acc
        (fun acc1 =>
          commitSwitchTime
            { st with lastSecondaryMode := secondaryEffectiveMode,
                      lastSecondaryTemp := secondaryTemp }
            inp acc1 effectiveMode)
    else
      commitSwitchTime st inp acc effectiveMode
  | none =>
    commitSwitchTime st inp acc effectiveMode

/-- Lines 360–367: main setpoint commit (the `target is not None` conjunct of
line 360 always holds here because `target` is already matched as present). -/
def commitMainTemp (cfg : Config) (st : State) (inp : TickInput)
    (acc : List Command) (effectiveMode : HVACMode) (diff target : ℚ) :
    StepResult :=
  if effectiveMode ≠ HVACMode.off then
    let mainTarget := target + cfg.primaryOffset
    if st.lastMainTemp ≠ some mainTarget then
      attempt inp st (Command.setTemperature cfg.mainClimate mainTarget) acc
        (fun acc1 =>
          commitSecondary cfg { st with lastMainTemp := some mainTarget } inp
            acc1 effectiveMode diff target)
    else
      commitSecondary cfg st inp acc effectiveMode diff target
  else
    commitSecondary cfg st inp acc effectiveMode diff target

/-- Lines 353–358: main mode commit, then the rest of the cycle. -/
def commitMain (cfg : Config) (st : State) (inp : TickInput)
    (effectiveMode : HVACMode) (diff target : ℚ) : StepResult :=
  if effectiveMode ≠ st.lastMainMode then
    attempt inp st (Command.setHvacMode cfg.mainClimate effectiveMode) []
      (fun acc1 =>
        commitMainTemp cfg { st with lastMainMode := effectiveMode } inp acc1
          effectiveMode diff target)
  else
    commitMainTemp cfg st inp [] effectiveMode diff target

/-- Lines 309–311: secondary half of the target-absent branch. -/
def turnOffSecondary (cfg : Config) (st : State) (inp : TickInput)
    (acc : List Command) : StepResult :=
  match cfg.secondaryClimate with
  | some dev =>
    if st.lastSecondaryMode ≠ HVACMode.off then
      sendSecondary inp st dev HVACMode.off none acc (fun acc1 =>
        ⟨{ st with lastSecondaryMode := HVACMode.off }, acc1, true⟩)
    else ⟨st, acc, true⟩
  | none => ⟨st, acc, true⟩

/-- Lines 304–312: with no target temperature, turn off any device whose
last-commanded mode is not already OFF, then return. -/
def turnOffDevices (cfg : Config) (st : State) (inp : TickInput) : StepResult :=
  if st.lastMainMode ≠ HVACMode.off then
    attempt inp st (Command.setHvacMode cfg.mainClimate HVACMode.off) []
      (fun acc1 =>
        turnOffSecondary cfg { st with lastMainMode := HVACMode.off } inp acc1)
  else
    turnOffSecondary cfg st inp []

/-- `_apply_temperature` (lines 292–382).  An unreadable indoor sensor
(absent, `unknown`/`unavailable`, or unparseable) returns early without
touching any state or issuing any command. -/
def applyTemperature (cfg : Config) (st : State) (inp : TickInput) :
    StepResult :=
  match inp.sensorReading with
  | none => ⟨st, [], true⟩
  | some current =>
    let st1 := { st with currentTemperature := some current }
    match st1.targetTemperature with
    | none => turnOffDevices cfg st1 inp
    | some target =>
      let md := computeEffectiveMode cfg current target inp.outdoorReading
      commitMain cfg st1 inp md.1 md.2 target

/-- The target-temperature resolution block of `async_set_preset_mode`
(lines 270–286).  A table maps a preset name to `none` (key absent),
`some none` (key present, value `None`) or `some (some t)`.  If no branch of
the `if`/`elif` chain assigns, the previous target is kept. -/
def resolvePresetTarget (heating cooling : String → Option (Option ℚ))
    (preset : String) (currentTemp : Option ℚ) (oldTarget : Option ℚ) :
    Option ℚ :=
  match currentTemp, heating preset, cooling preset with
  | some cur, some heatingTarget, some coolingTarget =>
    match heatingTarget, coolingTarget with
    | none, _ => coolingTarget
    | some _, none => heatingTarget
    | some h, some c =>
      if cur < (h + c) / 2 then some h else some c
  | _, some heatingTarget, _ => heatingTarget
  | _, none, some coolingTarget => coolingTarget
  | _, none, none => oldTarget

/-- `DEFAULT_HEATING_PRESETS` (lines 44–53). -/
def DEFAULT_HEATING_PRESETS : String → Option (Option ℚ) := fun preset =>
  match preset with
  | "none" => some none
  | "eco" => some (some 15)
  | "away" => some (some 15)
  | "sleep" => some (some 15)
  | "comfort" => some (some 20)
  | "boost" => some (some 24)
  | "home" => some (some 18)
  | "activity" => some (some 18)
  | _ => none

/-- `DEFAULT_COOLING_PRESETS` (lines 54–63). -/
def DEFAULT_COOLING_PRESETS : String → Option (Option ℚ) := fun preset =>
  match preset with
  | "none" => some none
  | "eco" => some none
  | "away" => some none
  | "sleep" => some (some 30)
  | "comfort" => some (some 24)
  | "boost" => some (some 22)
  | "home" => some (some 26)
  | "activity" => some (some 26)
  | _ => none

/-- An external stimulus handled by the entity: a periodic tick
(`_periodic_update`), a manual setpoint (`async_set_temperature`, whose
`temperature` kwarg may be missing), or a preset selection
(`async_set_preset_mode`). -/
inductive Event where
  | tick (inp : TickInput)
  | setTarget (temp : Option ℚ) (inp : TickInput)
  | setPreset (preset : String) (inp : TickInput)

/-- Dispatch one stimulus.  `async_set_temperature` returns early when no
`temperature` kwarg is given; `async_set_preset_mode` rejects a preset absent
from both tables, otherwise records it, resolves the target (reading the
sensor) and runs `_apply_temperature`. -/
def handleEvent (cfg : Config) (st : State) (e : Event) : StepResult :=
  match e with
  | .tick inp => applyTemperature cfg st inp
  | .setTarget temp inp =>
    match temp with
    | none => ⟨st, [], true⟩
    | some t =>
      applyTemperature cfg { st with targetTemperature := some t } inp
  | .setPreset preset inp =>
    if cfg.heatingPresets preset = none ∧ cfg.coolingPresets preset = none then
      ⟨st, [], true⟩
    else
      let newTarget := resolvePresetTarget cfg.heatingPresets
        cfg.coolingPresets preset inp.sensorReading st.targetTemperature
      applyTemperature cfg
        { st with presetMode := preset, targetTemperature := newTarget } inp

/-- Run a sequence of stimuli, collecting every attempted command. -/
def run (cfg : Config) (st : State) (es : List Event) : State × List Command :=
  match es with
  | [] => (st, [])
  | e :: rest =>
    let r := handleEvent cfg st e
    let rr := run cfg r.state rest
    (rr.1, r.commands ++ rr.2)

/-! ## Concrete instances used by counterexamples and witnesses -/

/-- A configuration with an outdoor sensor (hot threshold 24),
primary threshold 1, secondary threshold 3. -/
def cfgOutdoor : Config :=
  { mainClimate := "main_ac", secondaryClimate := some "sec_heater",
    outdoorSensor := some "outdoor_temp", primaryThreshold := 1,
    secondaryThreshold := 3, outdoorHotThreshold := 24, minRuntime := 300,
    primaryOffset := 1, secondaryOffset := 0,
    heatingPresets := DEFAULT_HEATING_PRESETS,
    coolingPresets := DEFAULT_COOLING_PRESETS }

/-- A configuration without an outdoor sensor, with a secondary device,
primary threshold 1, secondary threshold 2, zero offsets. -/
def cfgPlain : Config :=
  { mainClimate := "main_ac", secondaryClimate := some "sec_heater",
    outdoorSensor := none, primaryThreshold := 1, secondaryThreshold := 2,
    outdoorHotThreshold := 24, minRuntime := 300, primaryOffset := 0,
    secondaryOffset := 0, heatingPresets := DEFAULT_HEATING_PRESETS,
    coolingPresets := DEFAULT_COOLING_PRESETS }

/-- `cfgPlain` without any secondary device. -/
def cfgSolo : Config :=
  { mainClimate := "main_ac", secondaryClimate := none,
    outdoorSensor := none, primaryThreshold := 1, secondaryThreshold := 2,
    outdoorHotThreshold := 24, minRuntime := 300, primaryOffset := 0,
    secondaryOffset := 0, heatingPresets := DEFAULT_HEATING_PRESETS,
    coolingPresets := DEFAULT_COOLING_PRESETS }

/-- A state with target 25, both devices last commanded HEAT, the secondary
at setpoint 22 (a stale setpoint from an earlier target). -/
def stHeating : State :=
  { targetTemperature := some 25, currentTemperature := some 20,
    presetMode := "comfort", lastMainMode := HVACMode.heat,
    lastMainTemp := some 25, lastSecondaryMode := HVACMode.heat,
    lastSecondaryTemp := some 22, lastSwitchTime := 0 }

/-- A state with target 25 and both devices last commanded OFF. -/
def stIdle : State :=
  { targetTemperature := some 25, currentTemperature := some 20,
    presetMode := "comfort", lastMainMode := HVACMode.off,
    lastMainTemp := none, lastSecondaryMode := HVACMode.off,
    lastSecondaryTemp := none, lastSwitchTime := 0 }

/-- A state with no target temperature and both devices last commanded
HEAT. -/
def stNoTarget : State :=
  { targetTemperature := none, currentTemperature := some 20,
    presetMode := "none", lastMainMode := HVACMode.heat,
    lastMainTemp := some 25, lastSecondaryMode := HVACMode.heat,
    lastSecondaryTemp := some 25, lastSwitchTime := 0 }

/-- A tick whose indoor reading is 20, outdoor unavailable, and on which no
service call fails. -/
def inpOk : TickInput :=
  { sensorReading := some 20, outdoorReading := none, now := 10,
    fails := fun _ => false }

/-- A tick with no usable indoor reading. -/
def inpNoSensor : TickInput :=
  { sensorReading := none, outdoorReading := none, now := 10,
    fails := fun _ => false }

/-- A tick on which commanding the main device to HEAT fails. -/
def inpFailHeat : TickInput :=
  { sensorReading := some 20, outdoorReading := none, now := 10,
    fails := fun c => c == Command.setHvacMode "main_ac" HVACMode.heat }

/-- A tick on which commanding the secondary device to HEAT fails (the
second of the two service calls of a triggered secondary commit). -/
def inpFailSec : TickInput :=
  { sensorReading := some 20, outdoorReading := none, now := 10,
    fails := fun c =>
      decide (c = Command.setHvacMode "sec_heater" HVACMode.heat) }

/-! ## Derived forms used to state lemmas -/

/-- The service calls transmitted by one `_set_effective_secondary` call
that does not fail: a setpoint call when the mode is active and a
temperature is given, then the mode call. -/
def secondaryCmds (dev : String) (mode : HVACMode) (temp : Option ℚ) :
    List Command :=
  match temp with
  | some t =>
    if mode ≠ HVACMode.off then
      [Command.setTemperature dev t, Command.setHvacMode dev mode]
    else [Command.setHvacMode dev mode]
  | none => [Command.setHvacMode dev mode]

/-- Closed form of one evaluate→commit cycle with a readable sensor, a
present target and no failing service call; proved equal to
`applyTemperature` in `applyTemperature_eval`. -/
def evalCycle (cfg : Config) (st : State) (inp : TickInput)
    (cur target : ℚ) : StepResult :=
  let md := computeEffectiveMode cfg cur target inp.outdoorReading
  let em := md.1
  let mainTarget := target + cfg.primaryOffset
  let modeCmds : List Command :=
    if em ≠ st.lastMainMode then [Command.setHvacMode cfg.mainClimate em]
    else []
  let tempCmds : List Command :=
    if em ≠ HVACMode.off ∧ st.lastMainTemp ≠ some mainTarget then
      [Command.setTemperature cfg.mainClimate mainTarget]
    else []
  let newMainTemp : Option ℚ :=
    if em ≠ HVACMode.off ∧ st.lastMainTemp ≠ some mainTarget then
      some mainTarget
    else st.lastMainTemp
  let sec : List Command × HVACMode × Option ℚ :=
    match cfg.secondaryClimate with
    | none => ([], st.lastSecondaryMode, st.lastSecondaryTemp)
    | some dev =>
      let sm := secondaryModeFor cfg em md.2
      let stemp : Option ℚ :=
        if sm ≠ HVACMode.off then some (target + cfg.secondaryOffset)
        else none
      if sm ≠ st.lastSecondaryMode ∨ stemp ≠ st.lastSecondaryTemp then
        (secondaryCmds dev sm stemp, sm, stemp)
      else ([], st.lastSecondaryMode, st.lastSecondaryTemp)
  ⟨{ st with
      currentTemperature := some cur,
      lastMainMode := em,
      lastMainTemp := newMainTemp,
      lastSecondaryMode := sec.2.1,
      lastSecondaryTemp := sec.2.2,
      lastSwitchTime :=
        if em ≠ HVACMode.off then inp.now else st.lastSwitchTime },
    modeCmds ++ tempCmds ++ sec.1, true⟩

/-- Overwrite the two secondary-device bookkeeping fields. -/
def setSec (st : State) (m : HVACMode) (t : Option ℚ) : State :=
  { st with lastSecondaryMode := m, lastSecondaryTemp := t }

/-- Overwrite the tracked last-switch time. -/
def setSwitch (st : State) (τ : ℚ) : State :=
  { st with lastSwitchTime := τ }

/-- Overwrite the configured minimum runtime. -/
def setMin (cfg : Config) (r : ℚ) : Config :=
  { cfg with minRuntime := r }

/-! ## Branch characterizations of the decision engine -/

theorem computeEffectiveMode_heat (cfg : Config) (current target : ℚ)
    (outdoorReading : Option ℚ) (h : current < target - cfg.primaryThreshold) :
    computeEffectiveMode cfg current target outdoorReading =
      (HVACMode.heat, target - current) := by
  unfold computeEffectiveMode
  rw [if_pos h]

theorem computeEffectiveMode_band (cfg : Config) (current target : ℚ)
    (outdoorReading : Option ℚ)
    (h1 : ¬ current < target - cfg.primaryThreshold)
    (h2 : ¬ current > target + cfg.primaryThreshold) :
    computeEffectiveMode cfg current target outdoorReading =
      (HVACMode.off, 0) := by
  unfold computeEffectiveMode
  rw [if_neg h1, if_neg h2]

theorem computeEffectiveMode_cool_no_outdoor (cfg : Config)
    (current target : ℚ) (outdoorReading : Option ℚ)
    (h1 : ¬ current < target - cfg.primaryThreshold)
    (h2 : current > target + cfg.primaryThreshold)
    (hs : cfg.outdoorSensor = none) :
    computeEffectiveMode cfg current target outdoorReading =
      (HVACMode.cool, current - target) := by
  unfold computeEffectiveMode
  rw [if_neg h1, if_pos h2, hs]

theorem computeEffectiveMode_cool_hot (cfg : Config) (current target o : ℚ)
    (outdoorReading : Option ℚ)
    (h1 : ¬ current < target - cfg.primaryThreshold)
    (h2 : current > target + cfg.primaryThreshold)
    (hs : cfg.outdoorSensor ≠ none) (ho : outdoorReading = some o)
    (hhot : cfg.outdoorHotThreshold ≤ o) :
    computeEffectiveMode cfg current target outdoorReading =
      (HVACMode.cool, current - target) := by
  unfold computeEffectiveMode
  rw [if_neg h1, if_pos h2, ho]
  cases hsv : cfg.outdoorSensor with
  | none => exact absurd hsv hs
  | some s => simp [hhot]

theorem computeEffectiveMode_veto (cfg : Config) (current target : ℚ)
    (outdoorReading : Option ℚ)
    (h1 : ¬ current < target - cfg.primaryThreshold)
    (h2 : current > target + cfg.primaryThreshold)
    (hs : cfg.outdoorSensor ≠ none)
    (ho : outdoorReading = none ∨
      ∃ o, outdoorReading = some o ∧ o < cfg.outdoorHotThreshold) :
    computeEffectiveMode cfg current target outdoorReading =
      (HVACMode.off, current - target) := by
  unfold computeEffectiveMode
  rw [if_neg h1, if_pos h2]
  cases hsv : cfg.outdoorSensor with
  | none => exact absurd hsv hs
  | some s =>
    rcases ho with h | ⟨o, ho, hlt⟩
    · rw [h]
    · rw [ho]
      simp [not_le.mpr hlt]

/-! ## C1 — threshold bands -/

/-- C1 (corrected): the claim as stated is refuted by the outdoor cooling
veto.  With `cfgOutdoor` (thresholds `t_p = 1 < t_s = 3`, outdoor sensor
configured, hot threshold 24), current 24 and target 22 put the error in the
middle band `t_p < |current − target| ≤ t_s`, yet with an outdoor reading of
10 the primary mode is OFF, not active. -/
theorem C1_counterexample :
    cfgOutdoor.primaryThreshold < cfgOutdoor.secondaryThreshold ∧
    cfgOutdoor.primaryThreshold < |(24 : ℚ) - 22| ∧
    |(24 : ℚ) - 22| ≤ cfgOutdoor.secondaryThreshold ∧
    (computeEffectiveMode cfgOutdoor 24 22 (some 10)).1 = HVACMode.off := by
  refine ⟨?_, ?_, ?_, ?_⟩
  · norm_num [cfgOutdoor]
  · norm_num [cfgOutdoor]
  · norm_num [cfgOutdoor]
  · norm_num [computeEffectiveMode, cfgOutdoor]

/-- C1 (amended): for nonnegative thresholds `t_p < t_s` and whenever the
outdoor cooling veto does not apply (no outdoor sensor configured, or the
outdoor reading is available and at least the hot threshold):
if `|current − target| ≤ t_p` the primary mode is OFF; if
`t_p < |current − target| ≤ t_s` the primary mode is active and the
secondary mode is OFF; if `|current − target| > t_s` (and a secondary device
is configured) the secondary mode equals the primary mode and both are
active. -/
theorem C1_threshold_bands (cfg : Config) (current target : ℚ)
    (outdoorReading : Option ℚ)
    (htp : 0 ≤ cfg.primaryThreshold)
    (hts : cfg.primaryThreshold < cfg.secondaryThreshold)
    (hveto : cfg.outdoorSensor = none ∨
      ∃ o, outdoorReading = some o ∧ cfg.outdoorHotThreshold ≤ o) :
    (|current - target| ≤ cfg.primaryThreshold →
      (computeEffectiveMode cfg current target outdoorReading).1 =
        HVACMode.off) ∧
    (cfg.primaryThreshold < |current - target| →
      |current - target| ≤ cfg.secondaryThreshold →
      (computeEffectiveMode cfg current target outdoorReading).1 ≠
        HVACMode.off ∧
      secondaryModeFor cfg
        (computeEffectiveMode cfg current target outdoorReading).1
        (computeEffectiveMode cfg current target outdoorReading).2 =
        HVACMode.off) ∧
    (cfg.secondaryThreshold < |current - target| →
      cfg.secondaryClimate ≠ none →
      secondaryModeFor cfg
        (computeEffectiveMode cfg current target outdoorReading).1
        (computeEffectiveMode cfg current target outdoorReading).2 =
        (computeEffectiveMode cfg current target outdoorReading).1 ∧
      (computeEffectiveMode cfg current target outdoorReading).1 ≠
        HVACMode.off) := by
  have habs1 : current - target ≤ |current - target| := le_abs_self _
  have habs2 : target - current ≤ |current - target| := by
    rw [abs_sub_comm]
    exact le_abs_self _
  refine ⟨?_, ?_, ?_⟩
  · intro hin
    have h1 : ¬ current < target - cfg.primaryThreshold := by
      intro h
      have : cfg.primaryThreshold < target - current := by linarith
      linarith
    have h2 : ¬ current > target + cfg.primaryThreshold := by
      intro h
      have : cfg.primaryThreshold < current - target := by linarith
      linarith
    rw [computeEffectiveMode_band cfg current target outdoorReading h1 h2]
  · intro hout hin
    rcases lt_abs.mp hout with hgt | hgt
    · -- cooling side: current − target > t_p
      have h1 : ¬ current < target - cfg.primaryThreshold := by
        intro h
        linarith
      have h2 : current > target + cfg.primaryThreshold := by linarith
      have heq : |current - target| = current - target :=
        abs_of_pos (by linarith)
      have hc : computeEffectiveMode cfg current target outdoorReading =
          (HVACMode.cool, current - target) := by
        rcases hveto with hs | ⟨o, ho, hhot⟩
        · exact computeEffectiveMode_cool_no_outdoor cfg current target
            outdoorReading h1 h2 hs
        · rcases hsv : cfg.outdoorSensor with _ | s
          · exact computeEffectiveMode_cool_no_outdoor cfg current target
              outdoorReading h1 h2 hsv
          · exact computeEffectiveMode_cool_hot cfg current target o
              outdoorReading h1 h2 (by rw [hsv]; exact Option.some_ne_none s)
              ho hhot
      rw [hc]
      refine ⟨by simp, ?_⟩
      show secondaryModeFor cfg HVACMode.cool (current - target) = HVACMode.off
      unfold secondaryModeFor
      rw [if_neg (not_lt.mpr (by linarith))]
    · -- heating side: target − current > t_p
      have h1 : current < target - cfg.primaryThreshold := by linarith
      have heq : |current - target| = target - current := by
        rw [abs_sub_comm]
        exact abs_of_pos (by linarith)
      rw [computeEffectiveMode_heat cfg current target outdoorReading h1]
      refine ⟨by simp, ?_⟩
      show secondaryModeFor cfg HVACMode.heat (target - current) = HVACMode.off
      unfold secondaryModeFor
      rw [if_neg (not_lt.mpr (by linarith))]
  · intro hout _
    have hout2 : cfg.primaryThreshold < |current - target| := hts.trans hout
    rcases lt_abs.mp hout2 with hgt | hgt
    · have h1 : ¬ current < target - cfg.primaryThreshold := by
        intro h
        linarith
      have h2 : current > target + cfg.primaryThreshold := by linarith
      have heq : |current - target| = current - target :=
        abs_of_pos (by linarith)
      have hc : computeEffectiveMode cfg current target outdoorReading =
          (HVACMode.cool, current - target) := by
        rcases hveto with hs | ⟨o, ho, hhot⟩
        · exact computeEffectiveMode_cool_no_outdoor cfg current target
            outdoorReading h1 h2 hs
        · rcases hsv : cfg.outdoorSensor with _ | s
          · exact computeEffectiveMode_cool_no_outdoor cfg current target
              outdoorReading h1 h2 hsv
          · exact computeEffectiveMode_cool_hot cfg current target o
              outdoorReading h1 h2 (by rw [hsv]; exact Option.some_ne_none s)
              ho hhot
      rw [hc]
      refine ⟨?_, by simp⟩
      show secondaryModeFor cfg HVACMode.cool (current - target) = HVACMode.cool
      unfold secondaryModeFor
      rw [if_pos (by linarith : current - target > cfg.secondaryThreshold)]
    · have h1 : current < target - cfg.primaryThreshold := by linarith
      have heq : |current - target| = target - current := by
        rw [abs_sub_comm]
        exact abs_of_pos (by linarith)
      rw [computeEffectiveMode_heat cfg current target outdoorReading h1]
      refine ⟨?_, by simp⟩
      show secondaryModeFor cfg HVACMode.heat (target - current) = HVACMode.heat
      unfold secondaryModeFor
      rw [if_pos (by linarith : target - current > cfg.secondaryThreshold)]

/-- Witness for C1: `cfgPlain` (no outdoor sensor, `t_p = 1 < t_s = 2`) at
current 19, target 22. -/
theorem C1_threshold_bands_witness :
    (|(19 : ℚ) - 22| ≤ cfgPlain.primaryThreshold →
      (computeEffectiveMode cfgPlain 19 22 none).1 = HVACMode.off) ∧
    (cfgPlain.primaryThreshold < |(19 : ℚ) - 22| →
      |(19 : ℚ) - 22| ≤ cfgPlain.secondaryThreshold →
      (computeEffectiveMode cfgPlain 19 22 none).1 ≠ HVACMode.off ∧
      secondaryModeFor cfgPlain (computeEffectiveMode cfgPlain 19 22 none).1
        (computeEffectiveMode cfgPlain 19 22 none).2 = HVACMode.off) ∧
    (cfgPlain.secondaryThreshold < |(19 : ℚ) - 22| →
      cfgPlain.secondaryClimate ≠ none →
      secondaryModeFor cfgPlain (computeEffectiveMode cfgPlain 19 22 none).1
        (computeEffectiveMode cfgPlain 19 22 none).2 =
        (computeEffectiveMode cfgPlain 19 22 none).1 ∧
      (computeEffectiveMode cfgPlain 19 22 none).1 ≠ HVACMode.off) :=
  C1_threshold_bands cfgPlain 19 22 none (by norm_num [cfgPlain])
    (by norm_num [cfgPlain]) (Or.inl rfl)

/-! ## C2 — outdoor-sensor gating of cooling -/

/-- C2 (confirmed, assuming the nonnegative primary threshold implicit in a
hysteresis band): when `current > target + t_p`, cooling is gated on the
outdoor sensor exactly as claimed: sensor configured and unreadable → OFF;
configured and reading ≥ hot threshold → COOL; configured and reading below
the hot threshold → OFF; no outdoor sensor → COOL unconditionally. -/
theorem C2_outdoor_gate (cfg : Config) (current target : ℚ)
    (outdoorReading : Option ℚ)
    (htp : 0 ≤ cfg.primaryThreshold)
    (hcool : current > target + cfg.primaryThreshold) :
    (cfg.outdoorSensor ≠ none → outdoorReading = none →
      (computeEffectiveMode cfg current target outdoorReading).1 =
        HVACMode.off) ∧
    (∀ o, cfg.outdoorSensor ≠ none → outdoorReading = some o →
      cfg.outdoorHotThreshold ≤ o →
      (computeEffectiveMode cfg current target outdoorReading).1 =
        HVACMode.cool) ∧
    (∀ o, cfg.outdoorSensor ≠ none → outdoorReading = some o →
      o < cfg.outdoorHotThreshold →
      (computeEffectiveMode cfg current target outdoorReading).1 =
        HVACMode.off) ∧
    (cfg.outdoorSensor = none →
      (computeEffectiveMode cfg current target outdoorReading).1 =
        HVACMode.cool) := by
  have h1 : ¬ current < target - cfg.primaryThreshold := by
    intro h
    linarith
  refine ⟨?_, ?_, ?_, ?_⟩
  · intro hs ho
    rw [computeEffectiveMode_veto cfg current target outdoorReading h1 hcool
      hs (Or.inl ho)]
  · intro o hs ho hhot
    rw [computeEffectiveMode_cool_hot cfg current target o outdoorReading h1
      hcool hs ho hhot]
  · intro o hs ho hlt
    rw [computeEffectiveMode_veto cfg current target outdoorReading h1 hcool
      hs (Or.inr ⟨o, ho, hlt⟩)]
  · intro hs
    rw [computeEffectiveMode_cool_no_outdoor cfg current target
      outdoorReading h1 hcool hs]

/-- Witness for C2: `cfgOutdoor` at current 26, target 22 with an outdoor
reading of 30 (≥ hot threshold 24). -/
theorem C2_outdoor_gate_witness :
    (cfgOutdoor.outdoorSensor ≠ none → (some (30 : ℚ)) = none →
      (computeEffectiveMode cfgOutdoor 26 22 (some 30)).1 = HVACMode.off) ∧
    (∀ o, cfgOutdoor.outdoorSensor ≠ none → (some (30 : ℚ)) = some o →
      cfgOutdoor.outdoorHotThreshold ≤ o →
      (computeEffectiveMode cfgOutdoor 26 22 (some 30)).1 = HVACMode.cool) ∧
    (∀ o, cfgOutdoor.outdoorSensor ≠ none → (some (30 : ℚ)) = some o →
      o < cfgOutdoor.outdoorHotThreshold →
      (computeEffectiveMode cfgOutdoor 26 22 (some 30)).1 = HVACMode.off) ∧
    (cfgOutdoor.outdoorSensor = none →
      (computeEffectiveMode cfgOutdoor 26 22 (some 30)).1 = HVACMode.cool) :=
  C2_outdoor_gate cfgOutdoor 26 22 (some 30) (by norm_num [cfgOutdoor])
    (by norm_num [cfgOutdoor])

/-! ## C5 / C6 — preset resolution -/

/-- C5 (confirmed): for a preset mapping to both a heating target `h` and a
cooling target `c`, with the current temperature present, resolution computes
the midpoint `(h + c) / 2` and picks the heating target iff the current
temperature is strictly below it; in particular a tie resolves to the
cooling target. -/
theorem C5_preset_midpoint (heating cooling : String → Option (Option ℚ))
    (preset : String) (h c cur : ℚ) (oldTarget : Option ℚ)
    (hh : heating preset = some (some h))
    (hc : cooling preset = some (some c)) :
    resolvePresetTarget heating cooling preset (some cur) oldTarget =
      some (if cur < (h + c) / 2 then h else c) := by
  unfold resolvePresetTarget
  rw [hh, hc]
  show (if cur < (h + c) / 2 then some h else some c) =
    some (if cur < (h + c) / 2 then h else c)
  rw [apply_ite some]

/-- Witness for C5: the "comfort" preset (heating 20, cooling 24) at current
temperature exactly the midpoint 22 resolves to the cooling target 24. -/
theorem C5_preset_midpoint_witness :
    resolvePresetTarget DEFAULT_HEATING_PRESETS DEFAULT_COOLING_PRESETS
      "comfort" (some 22) none = some 24 := by
  have h := C5_preset_midpoint DEFAULT_HEATING_PRESETS
    DEFAULT_COOLING_PRESETS "comfort" 20 24 22 none
    (by norm_num [DEFAULT_HEATING_PRESETS])
    (by norm_num [DEFAULT_COOLING_PRESETS])
  rw [h]
  norm_num

/-- C6 (corrected): the claim that the target is left unchanged when the
preset has both targets and the temperature is unknown is refuted: "sleep"
maps to heating 15 and cooling 30, yet with the current temperature unknown
and previous target 20 the resolution sets the target to 15, not 20. -/
theorem C6_counterexample :
    DEFAULT_HEATING_PRESETS "sleep" = some (some 15) ∧
    DEFAULT_COOLING_PRESETS "sleep" = some (some 30) ∧
    resolvePresetTarget DEFAULT_HEATING_PRESETS DEFAULT_COOLING_PRESETS
      "sleep" none (some 20) = some 15 ∧
    some (15 : ℚ) ≠ some (20 : ℚ) := by
  refine ⟨?_, ?_, ?_, ?_⟩
  · norm_num [DEFAULT_HEATING_PRESETS]
  · norm_num [DEFAULT_COOLING_PRESETS]
  · norm_num [resolvePresetTarget, DEFAULT_HEATING_PRESETS,
      DEFAULT_COOLING_PRESETS]
  · norm_num

/-- C6 (amended): when the current temperature is unknown, resolution takes
the heating-table entry for the preset whenever that key exists (which, with
the built-in tables, is every preset — so a preset with both targets gets
its heating target, and the target is never "left unchanged"); only a preset
absent from the heating table falls back to its cooling entry; only a preset
absent from both tables leaves the target unchanged. -/
theorem C6_unknown_temperature_resolution
    (heating cooling : String → Option (Option ℚ)) (preset : String)
    (oldTarget : Option ℚ) :
    (∀ v, heating preset = some v →
      resolvePresetTarget heating cooling preset none oldTarget = v) ∧
    (heating preset = none → ∀ v, cooling preset = some v →
      resolvePresetTarget heating cooling preset none oldTarget = v) ∧
    (heating preset = none → cooling preset = none →
      resolvePresetTarget heating cooling preset none oldTarget =
        oldTarget) := by
  refine ⟨?_, ?_, ?_⟩
  · intro v hv
    unfold resolvePresetTarget
    rw [hv]
  · intro hh v hv
    unfold resolvePresetTarget
    rw [hh, hv]
  · intro hh hc
    unfold resolvePresetTarget
    rw [hh, hc]

/-- Witness for C6: "home" (heating 18, cooling 26) with the sensor
unavailable resolves to the heating entry 18, whatever the previous
target. -/
theorem C6_unknown_temperature_resolution_witness :
    resolvePresetTarget DEFAULT_HEATING_PRESETS DEFAULT_COOLING_PRESETS
      "home" none (some 3) = some 18 :=
  (C6_unknown_temperature_resolution DEFAULT_HEATING_PRESETS
    DEFAULT_COOLING_PRESETS "home" (some 3)).1 (some 18)
    (by norm_num [DEFAULT_HEATING_PRESETS])

/-! ## Closed forms of `_apply_temperature` -/

theorem attempt_ok (inp : TickInput) (st : State) (c : Command)
    (acc : List Command) (k : List Command → StepResult)
    (h : inp.fails c = false) :
    attempt inp st c acc k = k (acc ++ [c]) := by
  unfold attempt
  rw [h]
  simp

/-- An unreadable indoor sensor returns early: no state change, no
commands, normal return. -/
theorem applyTemperature_sensor_none (cfg : Config) (st : State)
    (inp : TickInput) (hs : inp.sensorReading = none) :
    applyTemperature cfg st inp = ⟨st, [], true⟩ := by
  unfold applyTemperature
  rw [hs]

/-- Closed form of the target-absent branch when no service call fails. -/
theorem applyTemperature_target_none (cfg : Config) (st : State)
    (inp : TickInput) (cur : ℚ)
    (hs : inp.sensorReading = some cur)
    (ht : st.targetTemperature = none)
    (hnf : ∀ c, inp.fails c = false) :
    applyTemperature cfg st inp =
      ⟨{ st with
          currentTemperature := some cur,
          lastMainMode := HVACMode.off,
          lastSecondaryMode :=
            (match cfg.secondaryClimate with
             | some _ => HVACMode.off
             | none => st.lastSecondaryMode) },
        (if st.lastMainMode ≠ HVACMode.off then
           [Command.setHvacMode cfg.mainClimate HVACMode.off] else []) ++
        (match cfg.secondaryClimate with
         | some dev =>
           if st.lastSecondaryMode ≠ HVACMode.off then
             [Command.setHvacMode dev HVACMode.off]
           else []
         | none => []),
        true⟩ := by
  obtain ⟨tt, ct, pm, lmm, lmt, lsm, lst, lsw⟩ := st
  simp only [State.targetTemperature] at ht
  subst ht
  unfold applyTemperature turnOffDevices turnOffSecondary sendSecondary
  rw [hs]
  cases hsec : cfg.secondaryClimate with
  | none =>
    simp only [attempt, hnf, Bool.false_eq_true, if_false]
    split_ifs <;> simp_all
  | some dev =>
    simp only [attempt, hnf, Bool.false_eq_true, if_false]
    split_ifs <;> simp_all

set_option maxHeartbeats 2000000 in
/-- Closed form of a full evaluate→commit cycle when no service call
fails. -/
theorem applyTemperature_eval (cfg : Config) (st : State) (inp : TickInput)
    (cur target : ℚ)
    (hs : inp.sensorReading = some cur)
    (ht : st.targetTemperature = some target)
    (hnf : ∀ c, inp.fails c = false) :
    applyTemperature cfg st inp = evalCycle cfg st inp cur target := by
  obtain ⟨tt, ct, pm, lmm, lmt, lsm, lst, lsw⟩ := st
  simp only [State.targetTemperature] at ht
  subst ht
  unfold applyTemperature evalCycle commitMain commitMainTemp
    commitSecondary sendSecondary commitSwitchTime secondaryCmds
  rw [hs]
  cases hsec : cfg.secondaryClimate with
  | none =>
    simp only [attempt, hnf, Bool.false_eq_true, if_false]
    split_ifs <;> simp_all
  | some dev =>
    simp only [attempt, hnf, Bool.false_eq_true, if_false]
    split_ifs <;> simp_all

/-! ## C4 — behaviour on sensor loss -/

/-- C4 (corrected): the claimed fail-safe is refuted.  With the main device
last commanded HEAT and the indoor sensor unreadable, the cycle issues no
command at all (in particular no OFF command) and leaves the state
untouched. -/
theorem C4_counterexample :
    stHeating.lastMainMode = HVACMode.heat ∧
    inpNoSensor.sensorReading = none ∧
    (applyTemperature cfgPlain stHeating inpNoSensor).commands = [] ∧
    (applyTemperature cfgPlain stHeating inpNoSensor).state = stHeating := by
  rw [applyTemperature_sensor_none cfgPlain stHeating inpNoSensor rfl]
  exact ⟨rfl, rfl, rfl, rfl⟩

/-- C4 (amended): whenever the current indoor temperature cannot be read
(sensor absent, unavailable, or unparseable), the decision engine is not
invoked and the handler returns immediately: no command is issued to any
device and the commanded state is left untouched.  (The all-devices-OFF
fail-safe applies to an absent target temperature, not to sensor loss.) -/
theorem C4_sensor_loss_no_commands (cfg : Config) (st : State)
    (inp : TickInput) (hs : inp.sensorReading = none) :
    applyTemperature cfg st inp = ⟨st, [], true⟩ :=
  applyTemperature_sensor_none cfg st inp hs

/-- Witness for C4: a heating state on a tick with no usable reading. -/
theorem C4_sensor_loss_no_commands_witness :
    applyTemperature cfgPlain stHeating inpNoSensor =
      ⟨stHeating, [], true⟩ :=
  C4_sensor_loss_no_commands cfgPlain stHeating inpNoSensor rfl

/-! ## C7 — absent target turns devices off exactly once -/

/-- C7 (confirmed): in a cycle with a readable sensor, an absent target and
no transmission failure, each device whose last-commanded mode is not OFF
receives an OFF mode command; afterwards the last-commanded modes are OFF
(for the secondary: when one is configured) and the target is still absent;
and if both devices are already OFF the cycle issues no command at all and
only updates the current-temperature attribute — so the OFF transition is
issued exactly once and not repeated. -/
theorem C7_target_absent_off_once (cfg : Config) (st : State)
    (inp : TickInput) (cur : ℚ)
    (hs : inp.sensorReading = some cur)
    (ht : st.targetTemperature = none)
    (hnf : ∀ c, inp.fails c = false) :
    (st.lastMainMode ≠ HVACMode.off →
      Command.setHvacMode cfg.mainClimate HVACMode.off ∈
        (applyTemperature cfg st inp).commands) ∧
    (∀ dev, cfg.secondaryClimate = some dev →
      st.lastSecondaryMode ≠ HVACMode.off →
      Command.setHvacMode dev HVACMode.off ∈
        (applyTemperature cfg st inp).commands) ∧
    (applyTemperature cfg st inp).state.lastMainMode = HVACMode.off ∧
    (cfg.secondaryClimate ≠ none →
      (applyTemperature cfg st inp).state.lastSecondaryMode =
        HVACMode.off) ∧
    (applyTemperature cfg st inp).state.targetTemperature = none ∧
    (st.lastMainMode = HVACMode.off →
      (cfg.secondaryClimate = none ∨ st.lastSecondaryMode = HVACMode.off) →
      (applyTemperature cfg st inp).commands = [] ∧
      (applyTemperature cfg st inp).state =
        { st with currentTemperature := some cur }) := by
  rw [applyTemperature_target_none cfg st inp cur hs ht hnf]
  obtain ⟨tt, ct, pm, lmm, lmt, lsm, lst, lsw⟩ := st
  simp only [State.targetTemperature] at ht
  subst ht
  refine ⟨?_, ?_, ?_, ?_, ?_, ?_⟩
  · intro hmm
    cases cfg.secondaryClimate <;> simp_all
  · intro dev hdev hsm
    rw [hdev]
    simp_all
  · rfl
  · intro hdev
    cases hsec : cfg.secondaryClimate with
    | none => exact absurd hsec hdev
    | some dev => simp
  · rfl
  · intro hmm hsec
    subst hmm
    rcases hsec with hsec | hsm
    · rw [hsec]
      simp
    · subst hsm
      cases cfg.secondaryClimate <;> simp

/-- Witness for C7: `cfgPlain` with a state whose devices were last
commanded HEAT and whose target is absent. -/
theorem C7_target_absent_off_once_witness :
    (stNoTarget.lastMainMode ≠ HVACMode.off →
      Command.setHvacMode cfgPlain.mainClimate HVACMode.off ∈
        (applyTemperature cfgPlain stNoTarget inpOk).commands) ∧
    (∀ dev, cfgPlain.secondaryClimate = some dev →
      stNoTarget.lastSecondaryMode ≠ HVACMode.off →
      Command.setHvacMode dev HVACMode.off ∈
        (applyTemperature cfgPlain stNoTarget inpOk).commands) ∧
    (applyTemperature cfgPlain stNoTarget inpOk).state.lastMainMode =
      HVACMode.off ∧
    (cfgPlain.secondaryClimate ≠ none →
      (applyTemperature cfgPlain stNoTarget inpOk).state.lastSecondaryMode =
        HVACMode.off) ∧
    (applyTemperature cfgPlain stNoTarget inpOk).state.targetTemperature =
      none ∧
    (stNoTarget.lastMainMode = HVACMode.off →
      (cfgPlain.secondaryClimate = none ∨
        stNoTarget.lastSecondaryMode = HVACMode.off) →
      (applyTemperature cfgPlain stNoTarget inpOk).commands = [] ∧
      (applyTemperature cfgPlain stNoTarget inpOk).state =
        { stNoTarget with currentTemperature := some 20 }) :=
  C7_target_absent_off_once cfgPlain stNoTarget inpOk 20 rfl rfl
    (fun _ => rfl)

/-! ## C3 — change suppression in the commit step -/

theorem evalCycle_main_mode (cfg : Config) (st : State) (inp : TickInput)
    (cur target : ℚ) (m : HVACMode)
    (hdist : cfg.secondaryClimate ≠ some cfg.mainClimate)
    (hmem : Command.setHvacMode cfg.mainClimate m ∈
      (evalCycle cfg st inp cur target).commands) :
    m ≠ st.lastMainMode := by
  unfold evalCycle at hmem
  rcases hsec : cfg.secondaryClimate with _ | dev
  · rw [hsec] at hmem
    simp only [List.mem_append, List.mem_singleton] at hmem
    split_ifs at hmem <;> simp_all [eq_comm]
  · rw [hsec] at hmem
    simp only [List.mem_append, List.mem_singleton, secondaryCmds]
      at hmem
    split_ifs at hmem <;> simp_all [eq_comm]

theorem evalCycle_main_temp (cfg : Config) (st : State) (inp : TickInput)
    (cur target : ℚ) (t : ℚ)
    (hdist : cfg.secondaryClimate ≠ some cfg.mainClimate)
    (hmem : Command.setTemperature cfg.mainClimate t ∈
      (evalCycle cfg st inp cur target).commands) :
    st.lastMainTemp ≠ some t ∧ t = target + cfg.primaryOffset ∧
    (computeEffectiveMode cfg cur target inp.outdoorReading).1 ≠
      HVACMode.off := by
  unfold evalCycle at hmem
  rcases hsec : cfg.secondaryClimate with _ | dev
  · rw [hsec] at hmem
    simp only [List.mem_append, List.mem_singleton] at hmem
    split_ifs at hmem <;> simp_all [eq_comm]
  · rw [hsec] at hmem
    simp only [List.mem_append, List.mem_singleton, secondaryCmds]
      at hmem
    split_ifs at hmem <;> simp_all [eq_comm]

theorem evalCycle_secondary_mode (cfg : Config) (st : State)
    (inp : TickInput) (cur target : ℚ) (dev : String) (m : HVACMode)
    (hdist : cfg.secondaryClimate ≠ some cfg.mainClimate)
    (hsec : cfg.secondaryClimate = some dev)
    (hmem : Command.setHvacMode dev m ∈
      (evalCycle cfg st inp cur target).commands) :
    m ≠ st.lastSecondaryMode ∨
      (if m = HVACMode.off then (none : Option ℚ)
       else some (target + cfg.secondaryOffset)) ≠ st.lastSecondaryTemp := by
  unfold evalCycle at hmem
  rw [hsec] at hmem
  simp only [List.mem_append, List.mem_singleton, secondaryCmds] at hmem
  split_ifs at hmem <;> simp_all [eq_comm]

theorem evalCycle_secondary_temp (cfg : Config) (st : State)
    (inp : TickInput) (cur target : ℚ) (dev : String) (t : ℚ)
    (hdist : cfg.secondaryClimate ≠ some cfg.mainClimate)
    (hsec : cfg.secondaryClimate = some dev)
    (hmem : Command.setTemperature dev t ∈
      (evalCycle cfg st inp cur target).commands) :
    t = target + cfg.secondaryOffset ∧
    secondaryModeFor cfg
      (computeEffectiveMode cfg cur target inp.outdoorReading).1
      (computeEffectiveMode cfg cur target inp.outdoorReading).2 ≠
      HVACMode.off ∧
    (secondaryModeFor cfg
        (computeEffectiveMode cfg cur target inp.outdoorReading).1
        (computeEffectiveMode cfg cur target inp.outdoorReading).2 ≠
        st.lastSecondaryMode ∨
      some t ≠ st.lastSecondaryTemp) := by
  unfold evalCycle at hmem
  rw [hsec] at hmem
  simp only [List.mem_append, List.mem_singleton, secondaryCmds] at hmem
  split_ifs at hmem <;> simp_all [eq_comm]

/-- C3 (corrected): the per-command conditions are refuted for the
secondary device.  In `stHeating` the secondary was last commanded HEAT;
the new cycle computes HEAT again (mode unchanged) with a changed setpoint,
yet a secondary `set_hvac_mode HEAT` command is issued. -/
theorem C3_counterexample :
    stHeating.lastSecondaryMode = HVACMode.heat ∧
    Command.setHvacMode "sec_heater" HVACMode.heat ∈
      (applyTemperature cfgPlain stHeating inpOk).commands := by
  refine ⟨rfl, ?_⟩
  have h : (applyTemperature cfgPlain stHeating inpOk).commands =
      [Command.setTemperature "sec_heater" 25,
       Command.setHvacMode "sec_heater" HVACMode.heat] := by
    norm_num [applyTemperature, cfgPlain, stHeating, inpOk, commitMain,
      commitMainTemp, commitSecondary, sendSecondary, commitSwitchTime,
      attempt, computeEffectiveMode, secondaryModeFor]
    simp
  rw [h]
  simp

/-- C3 (amended): in a commit step with no transmission failure and
distinct device identifiers, the primary device behaves as claimed: a mode
command only when the computed mode differs from the last-commanded one,
and a setpoint command only when the computed mode is active and the
setpoint differs.  The secondary device instead transmits whenever the
computed (mode, setpoint) pair differs from the last-commanded pair, and
then always sends the mode (possibly repeating an unchanged mode) together
with the setpoint when active (possibly repeating an unchanged setpoint).
Consequently no command is sent to a device whose computed mode and
setpoint are both unchanged. -/
theorem C3_commit_change_suppression (cfg : Config) (st : State)
    (inp : TickInput)
    (hnf : ∀ c, inp.fails c = false)
    (hdist : cfg.secondaryClimate ≠ some cfg.mainClimate) :
    (∀ m, Command.setHvacMode cfg.mainClimate m ∈
        (applyTemperature cfg st inp).commands → m ≠ st.lastMainMode) ∧
    (∀ t, Command.setTemperature cfg.mainClimate t ∈
        (applyTemperature cfg st inp).commands →
      st.lastMainTemp ≠ some t ∧
      (∃ cur target, inp.sensorReading = some cur ∧
        st.targetTemperature = some target ∧
        t = target + cfg.primaryOffset ∧
        (computeEffectiveMode cfg cur target inp.outdoorReading).1 ≠
          HVACMode.off)) ∧
    (∀ dev m, cfg.secondaryClimate = some dev →
      Command.setHvacMode dev m ∈ (applyTemperature cfg st inp).commands →
      m ≠ st.lastSecondaryMode ∨
        (∃ target, st.targetTemperature = some target ∧
          (if m = HVACMode.off then (none : Option ℚ)
           else some (target + cfg.secondaryOffset)) ≠
            st.lastSecondaryTemp)) ∧
    (∀ dev t, cfg.secondaryClimate = some dev →
      Command.setTemperature dev t ∈
        (applyTemperature cfg st inp).commands →
      ∃ cur target, inp.sensorReading = some cur ∧
        st.targetTemperature = some target ∧
        t = target + cfg.secondaryOffset ∧
        secondaryModeFor cfg
          (computeEffectiveMode cfg cur target inp.outdoorReading).1
          (computeEffectiveMode cfg cur target inp.outdoorReading).2 ≠
          HVACMode.off ∧
        (secondaryModeFor cfg
            (computeEffectiveMode cfg cur target inp.outdoorReading).1
            (computeEffectiveMode cfg cur target inp.outdoorReading).2 ≠
            st.lastSecondaryMode ∨
          some t ≠ st.lastSecondaryTemp)) := by
  rcases hsr : inp.sensorReading with _ | cur
  · rw [applyTemperature_sensor_none cfg st inp hsr]
    simp
  · rcases htt : st.targetTemperature with _ | target
    · rw [applyTemperature_target_none cfg st inp cur hsr htt hnf]
      refine ⟨?_, ?_, ?_, ?_⟩
      · intro m hm
        rcases hsec : cfg.secondaryClimate with _ | dev <;>
          rw [hsec] at hm <;>
          simp only [List.mem_append, List.mem_singleton] at hm <;>
          split_ifs at hm <;> aesop
      · intro t ht
        rcases hsec : cfg.secondaryClimate with _ | dev <;>
          rw [hsec] at ht <;>
          simp only [List.mem_append, List.mem_singleton] at ht <;>
          split_ifs at ht <;> aesop
      · intro dev m hdev hm
        rw [hdev] at hm
        simp only [List.mem_append, List.mem_singleton] at hm
        split_ifs at hm <;> aesop
      · intro dev t hdev ht
        rw [hdev] at ht
        simp only [List.mem_append, List.mem_singleton] at ht
        split_ifs at ht <;> aesop
    · rw [applyTemperature_eval cfg st inp cur target hsr htt hnf]
      refine ⟨?_, ?_, ?_, ?_⟩
      · intro m hm
        exact evalCycle_main_mode cfg st inp cur target m hdist hm
      · intro t ht
        obtain ⟨h1, h2, h3⟩ :=
          evalCycle_main_temp cfg st inp cur target t hdist ht
        exact ⟨h1, cur, target, rfl, rfl, h2, h3⟩
      · intro dev m hdev hm
        rcases evalCycle_secondary_mode cfg st inp cur target dev m hdist
            hdev hm with h | h
        · exact Or.inl h
        · exact Or.inr ⟨target, rfl, h⟩
      · intro dev t hdev ht
        obtain ⟨h1, h2, h3⟩ :=
          evalCycle_secondary_temp cfg st inp cur target dev t hdist hdev ht
        exact ⟨cur, target, rfl, rfl, h1, h2, h3⟩

/-- Witness for C3: the amended commit conditions at `cfgPlain`,
`stHeating`, `inpOk`. -/
theorem C3_commit_change_suppression_witness :
    (∀ m, Command.setHvacMode cfgPlain.mainClimate m ∈
        (applyTemperature cfgPlain stHeating inpOk).commands →
      m ≠ stHeating.lastMainMode) ∧
    (∀ t, Command.setTemperature cfgPlain.mainClimate t ∈
        (applyTemperature cfgPlain stHeating inpOk).commands →
      stHeating.lastMainTemp ≠ some t ∧
      (∃ cur target, inpOk.sensorReading = some cur ∧
        stHeating.targetTemperature = some target ∧
        t = target + cfgPlain.primaryOffset ∧
        (computeEffectiveMode cfgPlain cur target inpOk.outdoorReading).1 ≠
          HVACMode.off)) ∧
    (∀ dev m, cfgPlain.secondaryClimate = some dev →
      Command.setHvacMode dev m ∈
        (applyTemperature cfgPlain stHeating inpOk).commands →
      m ≠ stHeating.lastSecondaryMode ∨
        (∃ target, stHeating.targetTemperature = some target ∧
          (if m = HVACMode.off then (none : Option ℚ)
           else some (target + cfgPlain.secondaryOffset)) ≠
            stHeating.lastSecondaryTemp)) ∧
    (∀ dev t, cfgPlain.secondaryClimate = some dev →
      Command.setTemperature dev t ∈
        (applyTemperature cfgPlain stHeating inpOk).commands →
      ∃ cur target, inpOk.sensorReading = some cur ∧
        stHeating.targetTemperature = some target ∧
        t = target + cfgPlain.secondaryOffset ∧
        secondaryModeFor cfgPlain
          (computeEffectiveMode cfgPlain cur target inpOk.outdoorReading).1
          (computeEffectiveMode cfgPlain cur target inpOk.outdoorReading).2
          ≠ HVACMode.off ∧
        (secondaryModeFor cfgPlain
            (computeEffectiveMode cfgPlain cur target inpOk.outdoorReading).1
            (computeEffectiveMode cfgPlain cur target
              inpOk.outdoorReading).2 ≠
            stHeating.lastSecondaryMode ∨
          some t ≠ stHeating.lastSecondaryTemp)) :=
  C3_commit_change_suppression cfgPlain stHeating inpOk (fun _ => rfl)
    (by decide)

/-! ## C10 — failed commands and retry -/

theorem commitSwitchTime_acc (st : State) (inp : TickInput)
    (acc : List Command) (em : HVACMode) (c : Command) (h : c ∈ acc) :
    c ∈ (commitSwitchTime st inp acc em).commands := by
  unfold commitSwitchTime
  split <;> exact h

theorem attempt_acc (inp : TickInput) (st : State) (c0 : Command)
    (acc : List Command) (k : List Command → StepResult) (c : Command)
    (h : c ∈ acc) (hk : ∀ a, c ∈ a → c ∈ (k a).commands) :
    c ∈ (attempt inp st c0 acc k).commands := by
  unfold attempt
  split
  · exact List.mem_append_left _ h
  · exact hk _ (List.mem_append_left _ h)

theorem attempt_self (inp : TickInput) (st : State) (c0 : Command)
    (acc : List Command) (k : List Command → StepResult)
    (hk : ∀ a, c0 ∈ a → c0 ∈ (k a).commands) :
    c0 ∈ (attempt inp st c0 acc k).commands := by
  unfold attempt
  split
  · exact List.mem_append_right _ (by simp)
  · exact hk _ (List.mem_append_right _ (by simp))

theorem sendSecondary_acc (inp : TickInput) (st : State) (dev : String)
    (mode : HVACMode) (temp : Option ℚ) (acc : List Command)
    (k : List Command → StepResult) (c : Command) (h : c ∈ acc)
    (hk : ∀ a, c ∈ a → c ∈ (k a).commands) :
    c ∈ (sendSecondary inp st dev mode temp acc k).commands := by
  rcases temp with _ | t <;> simp only [sendSecondary]
  · exact attempt_acc inp st _ acc k c h hk
  · split
    · refine attempt_acc inp st _ acc _ c h ?_
      intro a ha
      exact attempt_acc inp st _ a k c ha hk
    · exact attempt_acc inp st _ acc k c h hk

theorem commitSecondary_acc (cfg : Config) (st : State) (inp : TickInput)
    (acc : List Command) (em : HVACMode) (diff target : ℚ) (c : Command)
    (h : c ∈ acc) :
    c ∈ (commitSecondary cfg st inp acc em diff target).commands := by
  cases hsec : cfg.secondaryClimate with
  | none =>
    simp only [commitSecondary, hsec]
    exact commitSwitchTime_acc st inp acc em c h
  | some dev =>
    simp only [commitSecondary, hsec]
    split
    all_goals split
    · refine sendSecondary_acc inp st dev _ _ acc _ c h ?_
      intro a ha
      exact commitSwitchTime_acc _ inp a em c ha
    · exact commitSwitchTime_acc st inp acc em c h
    · refine sendSecondary_acc inp st dev _ _ acc _ c h ?_
      intro a ha
      exact commitSwitchTime_acc _ inp a em c ha
    · exact commitSwitchTime_acc st inp acc em c h

theorem commitMainTemp_acc (cfg : Config) (st : State) (inp : TickInput)
    (acc : List Command) (em : HVACMode) (diff target : ℚ) (c : Command)
    (h : c ∈ acc) :
    c ∈ (commitMainTemp cfg st inp acc em diff target).commands := by
  simp only [commitMainTemp]
  split
  · split
    · refine attempt_acc inp st _ acc _ c h ?_
      intro a ha
      exact commitSecondary_acc cfg _ inp a em diff target c ha
    · exact commitSecondary_acc cfg st inp acc em diff target c h
  · exact commitSecondary_acc cfg st inp acc em diff target c h

/-- Whenever the computed mode differs from the last-commanded main mode,
the main mode command is transmitted (it appears in the attempted command
list whether or not it, or any later call, fails). -/
theorem commitMain_sends_mode (cfg : Config) (st : State) (inp : TickInput)
    (em : HVACMode) (diff target : ℚ) (h : em ≠ st.lastMainMode) :
    Command.setHvacMode cfg.mainClimate em ∈
      (commitMain cfg st inp em diff target).commands := by
  unfold commitMain
  rw [if_pos h]
  refine attempt_self inp st _ [] _ ?_
  intro a ha
  exact commitMainTemp_acc cfg _ inp a em diff target _ ha

/-- Closed form of a cycle whose very first service call — the main mode
command — fails: the exception aborts the handler (`ok = false`), only that
command was attempted, and no `last commanded` field is advanced (only the
current-temperature attribute, set on line 299, has changed). -/
theorem applyTemperature_main_mode_fail (cfg : Config) (st : State)
    (inp : TickInput) (cur target : ℚ)
    (hs : inp.sensorReading = some cur)
    (ht : st.targetTemperature = some target)
    (hmode : (computeEffectiveMode cfg cur target inp.outdoorReading).1 ≠
      st.lastMainMode)
    (hfail : inp.fails (Command.setHvacMode cfg.mainClimate
      (computeEffectiveMode cfg cur target inp.outdoorReading).1) = true) :
    applyTemperature cfg st inp =
      ⟨{ st with currentTemperature := some cur },
       [Command.setHvacMode cfg.mainClimate
         (computeEffectiveMode cfg cur target inp.outdoorReading).1],
       false⟩ := by
  obtain ⟨tt, ct, pm, lmm, lmt, lsm, lst, lsw⟩ := st
  simp only [State.targetTemperature] at ht
  subst ht
  simp only [State.lastMainMode] at hmode
  unfold applyTemperature commitMain attempt
  rw [hs]
  simp only [State.lastMainMode, if_pos hmode, hfail, if_true]
  rfl

/-- C10 (corrected): the "logged and not propagated" part is refuted.  With
the main device OFF, a decision to HEAT whose `set_hvac_mode` call raises
makes the whole handler raise (`ok = false` — there is no try/except around
command sends in `_apply_temperature`; nothing in the component catches or
logs it), while the last-commanded mode is indeed left unchanged. -/
theorem C10_counterexample :
    inpFailHeat.fails (Command.setHvacMode "main_ac" HVACMode.heat) = true ∧
    (applyTemperature cfgPlain stIdle inpFailHeat).ok = false ∧
    (applyTemperature cfgPlain stIdle inpFailHeat).state.lastMainMode =
      stIdle.lastMainMode := by
  have hE : computeEffectiveMode cfgPlain 20 25 inpFailHeat.outdoorReading =
      (HVACMode.heat, 5) := by
    norm_num [computeEffectiveMode, cfgPlain, inpFailHeat]
  have h := applyTemperature_main_mode_fail cfgPlain stIdle inpFailHeat 20 25
    rfl rfl (by rw [hE]; exact fun hcon => HVACMode.noConfusion hcon)
    (by rw [hE]; rfl)
  rw [h]
  exact ⟨rfl, rfl, rfl⟩

/-- Closed form of a cycle aborted by a failing main setpoint command (the
main mode command, when one was due, succeeded). -/
theorem applyTemperature_main_temp_fail (cfg : Config) (st : State)
    (inp : TickInput) (cur target : ℚ)
    (hs : inp.sensorReading = some cur)
    (ht : st.targetTemperature = some target)
    (hok1 : (computeEffectiveMode cfg cur target inp.outdoorReading).1 ≠
        st.lastMainMode →
      inp.fails (Command.setHvacMode cfg.mainClimate
        (computeEffectiveMode cfg cur target inp.outdoorReading).1) = false)
    (h1 : (computeEffectiveMode cfg cur target inp.outdoorReading).1 ≠
      HVACMode.off)
    (h2 : st.lastMainTemp ≠ some (target + cfg.primaryOffset))
    (hf : inp.fails (Command.setTemperature cfg.mainClimate
      (target + cfg.primaryOffset)) = true) :
    applyTemperature cfg st inp =
      ⟨{ st with
          currentTemperature := some cur,
          lastMainMode :=
            (computeEffectiveMode cfg cur target inp.outdoorReading).1 },
       (if (computeEffectiveMode cfg cur target inp.outdoorReading).1 ≠
            st.lastMainMode then
          [Command.setHvacMode cfg.mainClimate
            (computeEffectiveMode cfg cur target inp.outdoorReading).1]
        else []) ++
        [Command.setTemperature cfg.mainClimate
          (target + cfg.primaryOffset)],
       false⟩ := by
  obtain ⟨tt, ct, pm, lmm, lmt, lsm, lst, lsw⟩ := st
  simp only [State.targetTemperature] at ht
  subst ht
  simp only [State.lastMainMode, State.lastMainTemp] at hok1 h2 ⊢
  unfold applyTemperature commitMain commitMainTemp attempt
  rw [hs]
  split_ifs <;> simp_all

/-- Closed form of a cycle aborted by a failing OFF command to the main
device in the target-absent branch. -/
theorem applyTemperature_off_main_fail (cfg : Config) (st : State)
    (inp : TickInput) (cur : ℚ)
    (hs : inp.sensorReading = some cur)
    (ht : st.targetTemperature = none)
    (h1 : st.lastMainMode ≠ HVACMode.off)
    (hf : inp.fails (Command.setHvacMode cfg.mainClimate HVACMode.off) =
      true) :
    applyTemperature cfg st inp =
      ⟨{ st with currentTemperature := some cur },
       [Command.setHvacMode cfg.mainClimate HVACMode.off], false⟩ := by
  obtain ⟨tt, ct, pm, lmm, lmt, lsm, lst, lsw⟩ := st
  simp only [State.targetTemperature] at ht
  subst ht
  simp only [State.lastMainMode] at h1
  unfold applyTemperature turnOffDevices attempt
  rw [hs]
  simp only [State.lastMainMode, if_pos h1, hf, if_true]
  rfl

/-- Closed form of a cycle aborted by a failing OFF command to the
secondary device in the target-absent branch (the main OFF command, when
one was due, succeeded). -/
theorem applyTemperature_off_secondary_fail (cfg : Config) (st : State)
    (inp : TickInput) (cur : ℚ) (dev : String)
    (hs : inp.sensorReading = some cur)
    (ht : st.targetTemperature = none)
    (hok : st.lastMainMode ≠ HVACMode.off →
      inp.fails (Command.setHvacMode cfg.mainClimate HVACMode.off) = false)
    (hsec : cfg.secondaryClimate = some dev)
    (h1 : st.lastSecondaryMode ≠ HVACMode.off)
    (hf : inp.fails (Command.setHvacMode dev HVACMode.off) = true) :
    applyTemperature cfg st inp =
      ⟨{ st with
          currentTemperature := some cur,
          lastMainMode := HVACMode.off },
       (if st.lastMainMode ≠ HVACMode.off then
          [Command.setHvacMode cfg.mainClimate HVACMode.off] else []) ++
        [Command.setHvacMode dev HVACMode.off],
       false⟩ := by
  obtain ⟨tt, ct, pm, lmm, lmt, lsm, lst, lsw⟩ := st
  simp only [State.targetTemperature] at ht
  subst ht
  simp only [State.lastMainMode, State.lastSecondaryMode] at hok h1 ⊢
  unfold applyTemperature turnOffDevices turnOffSecondary sendSecondary
    attempt
  rw [hs]
  simp only [hsec]
  split_ifs <;> simp_all


/-- Closed form of a cycle aborted by a failing secondary setpoint command
(all earlier commands, when due, succeeded).  An active secondary mode
forces an active primary mode, so the main setpoint stage has run and the
last main setpoint equals `target + primaryOffset` afterwards. -/
theorem applyTemperature_secondary_temp_fail (cfg : Config) (st : State)
    (inp : TickInput) (cur target : ℚ) (dev : String)
    (hs : inp.sensorReading = some cur)
    (ht : st.targetTemperature = some target)
    (hsec : cfg.secondaryClimate = some dev)
    (hok1 : (computeEffectiveMode cfg cur target inp.outdoorReading).1 ≠
        st.lastMainMode →
      inp.fails (Command.setHvacMode cfg.mainClimate
        (computeEffectiveMode cfg cur target inp.outdoorReading).1) = false)
    (hok2 : (computeEffectiveMode cfg cur target inp.outdoorReading).1 ≠
        HVACMode.off →
      st.lastMainTemp ≠ some (target + cfg.primaryOffset) →
      inp.fails (Command.setTemperature cfg.mainClimate
        (target + cfg.primaryOffset)) = false)
    (hsm : secondaryModeFor cfg
      (computeEffectiveMode cfg cur target inp.outdoorReading).1
      (computeEffectiveMode cfg cur target inp.outdoorReading).2 ≠
      HVACMode.off)
    (htrig : secondaryModeFor cfg
        (computeEffectiveMode cfg cur target inp.outdoorReading).1
        (computeEffectiveMode cfg cur target inp.outdoorReading).2 ≠
        st.lastSecondaryMode ∨
      some (target + cfg.secondaryOffset) ≠ st.lastSecondaryTemp)
    (hf : inp.fails (Command.setTemperature dev
      (target + cfg.secondaryOffset)) = true) :
    applyTemperature cfg st inp =
      ⟨{ st with
          currentTemperature := some cur,
          lastMainMode :=
            (computeEffectiveMode cfg cur target inp.outdoorReading).1,
          lastMainTemp := some (target + cfg.primaryOffset) },
       (if (computeEffectiveMode cfg cur target inp.outdoorReading).1 ≠
            st.lastMainMode then
          [Command.setHvacMode cfg.mainClimate
            (computeEffectiveMode cfg cur target inp.outdoorReading).1]
        else []) ++
        (if st.lastMainTemp ≠ some (target + cfg.primaryOffset) then
          [Command.setTemperature cfg.mainClimate
            (target + cfg.primaryOffset)]
        else []) ++
        [Command.setTemperature dev (target + cfg.secondaryOffset)],
       false⟩ := by
  obtain ⟨tt, ct, pm, lmm, lmt, lsm, lst, lsw⟩ := st
  simp only [State.targetTemperature] at ht
  subst ht
  simp only [State.lastMainMode, State.lastMainTemp, State.lastSecondaryMode,
    State.lastSecondaryTemp] at hok1 hok2 htrig ⊢
  have hem : (computeEffectiveMode cfg cur target inp.outdoorReading).1 ≠
      HVACMode.off := by
    intro hcon
    apply hsm
    unfold secondaryModeFor
    rw [hcon]
    split_ifs <;> rfl
  unfold applyTemperature commitMain commitMainTemp commitSecondary
    sendSecondary attempt
  rw [hs]
  simp only [hsec]
  split_ifs <;> simp_all

set_option maxHeartbeats 4000000 in
/-- Closed form of a cycle aborted by a failing secondary mode command
(all earlier commands, when due, succeeded — including the secondary
setpoint command sent just before it when the secondary mode is active). -/
theorem applyTemperature_secondary_mode_fail (cfg : Config) (st : State)
    (inp : TickInput) (cur target : ℚ) (dev : String)
    (hs : inp.sensorReading = some cur)
    (ht : st.targetTemperature = some target)
    (hsec : cfg.secondaryClimate = some dev)
    (hok1 : (computeEffectiveMode cfg cur target inp.outdoorReading).1 ≠
        st.lastMainMode →
      inp.fails (Command.setHvacMode cfg.mainClimate
        (computeEffectiveMode cfg cur target inp.outdoorReading).1) = false)
    (hok2 : (computeEffectiveMode cfg cur target inp.outdoorReading).1 ≠
        HVACMode.off →
      st.lastMainTemp ≠ some (target + cfg.primaryOffset) →
      inp.fails (Command.setTemperature cfg.mainClimate
        (target + cfg.primaryOffset)) = false)
    (hok3 : secondaryModeFor cfg
        (computeEffectiveMode cfg cur target inp.outdoorReading).1
        (computeEffectiveMode cfg cur target inp.outdoorReading).2 ≠
        HVACMode.off →
      inp.fails (Command.setTemperature dev
        (target + cfg.secondaryOffset)) = false)
    (htrig : secondaryModeFor cfg
        (computeEffectiveMode cfg cur target inp.outdoorReading).1
        (computeEffectiveMode cfg cur target inp.outdoorReading).2 ≠
        st.lastSecondaryMode ∨
      (if secondaryModeFor cfg
          (computeEffectiveMode cfg cur target inp.outdoorReading).1
          (computeEffectiveMode cfg cur target inp.outdoorReading).2 ≠
          HVACMode.off then
        some (target + cfg.secondaryOffset) else none) ≠
        st.lastSecondaryTemp)
    (hf : inp.fails (Command.setHvacMode dev (secondaryModeFor cfg
      (computeEffectiveMode cfg cur target inp.outdoorReading).1
      (computeEffectiveMode cfg cur target inp.outdoorReading).2)) =
      true) :
    applyTemperature cfg st inp =
      ⟨{ st with
          currentTemperature := some cur,
          lastMainMode :=
            (computeEffectiveMode cfg cur target inp.outdoorReading).1,
          lastMainTemp :=
            if (computeEffectiveMode cfg cur target inp.outdoorReading).1 ≠
                HVACMode.off then
              some (target + cfg.primaryOffset)
            else st.lastMainTemp },
       (if (computeEffectiveMode cfg cur target inp.outdoorReading).1 ≠
            st.lastMainMode then
          [Command.setHvacMode cfg.mainClimate
            (computeEffectiveMode cfg cur target inp.outdoorReading).1]
        else []) ++
        (if (computeEffectiveMode cfg cur target inp.outdoorReading).1 ≠
              HVACMode.off ∧
            st.lastMainTemp ≠ some (target + cfg.primaryOffset) then
          [Command.setTemperature cfg.mainClimate
            (target + cfg.primaryOffset)]
        else []) ++
        (if secondaryModeFor cfg
            (computeEffectiveMode cfg cur target inp.outdoorReading).1
            (computeEffectiveMode cfg cur target inp.outdoorReading).2 ≠
            HVACMode.off then
          [Command.setTemperature dev (target + cfg.secondaryOffset)]
        else []) ++
        [Command.setHvacMode dev (secondaryModeFor cfg
          (computeEffectiveMode cfg cur target inp.outdoorReading).1
          (computeEffectiveMode cfg cur target inp.outdoorReading).2)],
       false⟩ := by
  obtain ⟨tt, ct, pm, lmm, lmt, lsm, lst, lsw⟩ := st
  simp only [State.targetTemperature] at ht
  subst ht
  simp only [State.lastMainMode, State.lastMainTemp, State.lastSecondaryMode,
    State.lastSecondaryTemp] at hok1 hok2 htrig ⊢
  unfold applyTemperature commitMain commitMainTemp commitSecondary
    sendSecondary attempt
  rw [hs]
  simp only [hsec]
  split_ifs <;> simp_all



/-- A due main mode command appears in the commands of a successful
cycle. -/
theorem evalCycle_mem_main_mode (cfg : Config) (st : State)
    (inp : TickInput) (cur target : ℚ)
    (h : (computeEffectiveMode cfg cur target inp.outdoorReading).1 ≠
      st.lastMainMode) :
    Command.setHvacMode cfg.mainClimate
        (computeEffectiveMode cfg cur target inp.outdoorReading).1 ∈
      (evalCycle cfg st inp cur target).commands := by
  unfold evalCycle
  simp [h]

/-- A due main setpoint command appears in the commands of a successful
cycle. -/
theorem evalCycle_mem_main_temp (cfg : Config) (st : State)
    (inp : TickInput) (cur target : ℚ)
    (h1 : (computeEffectiveMode cfg cur target inp.outdoorReading).1 ≠
      HVACMode.off)
    (h2 : st.lastMainTemp ≠ some (target + cfg.primaryOffset)) :
    Command.setTemperature cfg.mainClimate (target + cfg.primaryOffset) ∈
      (evalCycle cfg st inp cur target).commands := by
  unfold evalCycle
  simp [h1, h2]

/-- A triggered secondary commit always transmits the secondary mode
command. -/
theorem evalCycle_mem_secondary_mode (cfg : Config) (st : State)
    (inp : TickInput) (cur target : ℚ) (dev : String)
    (hsec : cfg.secondaryClimate = some dev)
    (htrig : secondaryModeFor cfg
        (computeEffectiveMode cfg cur target inp.outdoorReading).1
        (computeEffectiveMode cfg cur target inp.outdoorReading).2 ≠
        st.lastSecondaryMode ∨
      (if secondaryModeFor cfg
          (computeEffectiveMode cfg cur target inp.outdoorReading).1
          (computeEffectiveMode cfg cur target inp.outdoorReading).2 ≠
          HVACMode.off then
        some (target + cfg.secondaryOffset) else none) ≠
        st.lastSecondaryTemp) :
    Command.setHvacMode dev (secondaryModeFor cfg
        (computeEffectiveMode cfg cur target inp.outdoorReading).1
        (computeEffectiveMode cfg cur target inp.outdoorReading).2) ∈
      (evalCycle cfg st inp cur target).commands := by
  simp only [evalCycle, secondaryCmds, hsec]
  split_ifs at htrig ⊢ <;> simp_all

/-- A triggered secondary commit with an active secondary mode transmits
the secondary setpoint command. -/
theorem evalCycle_mem_secondary_temp (cfg : Config) (st : State)
    (inp : TickInput) (cur target : ℚ) (dev : String)
    (hsec : cfg.secondaryClimate = some dev)
    (hsm : secondaryModeFor cfg
      (computeEffectiveMode cfg cur target inp.outdoorReading).1
      (computeEffectiveMode cfg cur target inp.outdoorReading).2 ≠
      HVACMode.off)
    (htrig : secondaryModeFor cfg
        (computeEffectiveMode cfg cur target inp.outdoorReading).1
        (computeEffectiveMode cfg cur target inp.outdoorReading).2 ≠
        st.lastSecondaryMode ∨
      some (target + cfg.secondaryOffset) ≠ st.lastSecondaryTemp) :
    Command.setTemperature dev (target + cfg.secondaryOffset) ∈
      (evalCycle cfg st inp cur target).commands := by
  simp only [evalCycle, secondaryCmds, hsec]
  split_ifs <;> simp_all

/-- `attempt` returns normally when the command does not fail and the
continuation returns normally on any accumulator. -/
theorem attempt_ok_chain (inp : TickInput) (st : State) (c : Command)
    (acc : List Command) (k : List Command → StepResult)
    (hf : inp.fails c = false)
    (hk : ∀ a, (k a).ok = true) :
    (attempt inp st c acc k).ok = true := by
  rw [attempt_ok inp st c acc k hf]
  exact hk (acc ++ [c])

/-- `commitSwitchTime` always returns normally. -/
theorem commitSwitchTime_ok (st : State) (inp : TickInput)
    (acc : List Command) (em : HVACMode) :
    (commitSwitchTime st inp acc em).ok = true := by
  unfold commitSwitchTime
  split_ifs <;> rfl

/-- `sendSecondary` returns normally when its due sends do not fail and
the continuation returns normally. -/
theorem sendSecondary_ok (inp : TickInput) (st : State) (dev : String)
    (mode : HVACMode) (temp : Option ℚ) (acc : List Command)
    (k : List Command → StepResult)
    (hft : ∀ t, temp = some t → mode ≠ HVACMode.off →
      inp.fails (Command.setTemperature dev t) = false)
    (hfm : inp.fails (Command.setHvacMode dev mode) = false)
    (hk : ∀ a, (k a).ok = true) :
    (sendSecondary inp st dev mode temp acc k).ok = true := by
  rcases temp with _ | t
  · simp only [sendSecondary]
    exact attempt_ok_chain inp st _ acc k hfm hk
  · simp only [sendSecondary]
    by_cases hm : mode ≠ HVACMode.off
    · rw [if_pos hm]
      exact attempt_ok_chain inp st _ acc _ (hft t rfl hm)
        (fun a => attempt_ok_chain inp st _ a k hfm hk)
    · rw [if_neg hm]
      exact attempt_ok_chain inp st _ acc k hfm hk

/-- `commitSecondary` returns normally when the secondary sends it may
attempt do not fail. -/
theorem commitSecondary_ok (cfg : Config) (st : State) (inp : TickInput)
    (acc : List Command) (em : HVACMode) (diff target : ℚ)
    (k3 : ∀ dev, cfg.secondaryClimate = some dev →
      secondaryModeFor cfg em diff ≠ st.lastSecondaryMode ∨
      (if secondaryModeFor cfg em diff ≠ HVACMode.off then
        some (target + cfg.secondaryOffset) else none) ≠
        st.lastSecondaryTemp →
      secondaryModeFor cfg em diff ≠ HVACMode.off →
      inp.fails (Command.setTemperature dev
        (target + cfg.secondaryOffset)) = false)
    (k4 : ∀ dev, cfg.secondaryClimate = some dev →
      secondaryModeFor cfg em diff ≠ st.lastSecondaryMode ∨
      (if secondaryModeFor cfg em diff ≠ HVACMode.off then
        some (target + cfg.secondaryOffset) else none) ≠
        st.lastSecondaryTemp →
      inp.fails (Command.setHvacMode dev (secondaryModeFor cfg em diff)) =
        false) :
    (commitSecondary cfg st inp acc em diff target).ok = true := by
  rcases hsec : cfg.secondaryClimate with _ | dev
  · simp only [commitSecondary, hsec]
    exact commitSwitchTime_ok st inp acc em
  · simp only [commitSecondary, hsec]
    by_cases htr : secondaryModeFor cfg em diff ≠ st.lastSecondaryMode ∨
        (if secondaryModeFor cfg em diff ≠ HVACMode.off then
          some (target + cfg.secondaryOffset) else none) ≠
          st.lastSecondaryTemp
    · rw [if_pos htr]
      refine sendSecondary_ok inp st dev _ _ acc _ ?_ (k4 dev hsec htr)
        (fun a => commitSwitchTime_ok _ inp a em)
      intro t ht hm
      rw [if_pos hm] at ht
      injection ht with ht2
      subst ht2
      exact k3 dev hsec htr hm
    · rw [if_neg htr]
      exact commitSwitchTime_ok st inp acc em

/-- `commitMainTemp` returns normally when the sends it may attempt do
not fail. -/
theorem commitMainTemp_ok (cfg : Config) (st : State) (inp : TickInput)
    (acc : List Command) (em : HVACMode) (diff target : ℚ)
    (k2 : em ≠ HVACMode.off →
      st.lastMainTemp ≠ some (target + cfg.primaryOffset) →
      inp.fails (Command.setTemperature cfg.mainClimate
        (target + cfg.primaryOffset)) = false)
    (k3 : ∀ dev, cfg.secondaryClimate = some dev →
      secondaryModeFor cfg em diff ≠ st.lastSecondaryMode ∨
      (if secondaryModeFor cfg em diff ≠ HVACMode.off then
        some (target + cfg.secondaryOffset) else none) ≠
        st.lastSecondaryTemp →
      secondaryModeFor cfg em diff ≠ HVACMode.off →
      inp.fails (Command.setTemperature dev
        (target + cfg.secondaryOffset)) = false)
    (k4 : ∀ dev, cfg.secondaryClimate = some dev →
      secondaryModeFor cfg em diff ≠ st.lastSecondaryMode ∨
      (if secondaryModeFor cfg em diff ≠ HVACMode.off then
        some (target + cfg.secondaryOffset) else none) ≠
        st.lastSecondaryTemp →
      inp.fails (Command.setHvacMode dev (secondaryModeFor cfg em diff)) =
        false) :
    (commitMainTemp cfg st inp acc em diff target).ok = true := by
  simp only [commitMainTemp]
  by_cases h1 : em ≠ HVACMode.off
  · rw [if_pos h1]
    by_cases h2 : st.lastMainTemp ≠ some (target + cfg.primaryOffset)
    · rw [if_pos h2]
      exact attempt_ok_chain inp st _ acc _ (k2 h1 h2)
        (fun a => commitSecondary_ok cfg _ inp a em diff target k3 k4)
    · rw [if_neg h2]
      exact commitSecondary_ok cfg st inp acc em diff target k3 k4
  · rw [if_neg h1]
    exact commitSecondary_ok cfg st inp acc em diff target k3 k4

/-- `commitMain` returns normally when the sends it may attempt do not
fail. -/
theorem commitMain_ok (cfg : Config) (st : State) (inp : TickInput)
    (em : HVACMode) (diff target : ℚ)
    (k1 : em ≠ st.lastMainMode →
      inp.fails (Command.setHvacMode cfg.mainClimate em) = false)
    (k2 : em ≠ HVACMode.off →
      st.lastMainTemp ≠ some (target + cfg.primaryOffset) →
      inp.fails (Command.setTemperature cfg.mainClimate
        (target + cfg.primaryOffset)) = false)
    (k3 : ∀ dev, cfg.secondaryClimate = some dev →
      secondaryModeFor cfg em diff ≠ st.lastSecondaryMode ∨
      (if secondaryModeFor cfg em diff ≠ HVACMode.off then
        some (target + cfg.secondaryOffset) else none) ≠
        st.lastSecondaryTemp →
      secondaryModeFor cfg em diff ≠ HVACMode.off →
      inp.fails (Command.setTemperature dev
        (target + cfg.secondaryOffset)) = false)
    (k4 : ∀ dev, cfg.secondaryClimate = some dev →
      secondaryModeFor cfg em diff ≠ st.lastSecondaryMode ∨
      (if secondaryModeFor cfg em diff ≠ HVACMode.off then
        some (target + cfg.secondaryOffset) else none) ≠
        st.lastSecondaryTemp →
      inp.fails (Command.setHvacMode dev (secondaryModeFor cfg em diff)) =
        false) :
    (commitMain cfg st inp em diff target).ok = true := by
  simp only [commitMain]
  by_cases h1 : em ≠ st.lastMainMode
  · rw [if_pos h1]
    exact attempt_ok_chain inp st _ [] _ (k1 h1)
      (fun a => commitMainTemp_ok cfg _ inp a em diff target k2 k3 k4)
  · rw [if_neg h1]
    exact commitMainTemp_ok cfg st inp [] em diff target k2 k3 k4

/-- `turnOffSecondary` returns normally when its due OFF send does not
fail. -/
theorem turnOffSecondary_ok (cfg : Config) (st : State) (inp : TickInput)
    (acc : List Command)
    (k2 : ∀ dev, cfg.secondaryClimate = some dev →
      st.lastSecondaryMode ≠ HVACMode.off →
      inp.fails (Command.setHvacMode dev HVACMode.off) = false) :
    (turnOffSecondary cfg st inp acc).ok = true := by
  rcases hsec : cfg.secondaryClimate with _ | dev
  · simp only [turnOffSecondary, hsec]
  · simp only [turnOffSecondary, hsec]
    by_cases h : st.lastSecondaryMode ≠ HVACMode.off
    · rw [if_pos h]
      exact sendSecondary_ok inp st dev HVACMode.off none acc _
        (fun t ht _ => Option.noConfusion ht) (k2 dev hsec h)
        (fun a => rfl)
    · rw [if_neg h]

/-- `turnOffDevices` returns normally when its due OFF sends do not
fail. -/
theorem turnOffDevices_ok (cfg : Config) (st : State) (inp : TickInput)
    (k1 : st.lastMainMode ≠ HVACMode.off →
      inp.fails (Command.setHvacMode cfg.mainClimate HVACMode.off) = false)
    (k2 : ∀ dev, cfg.secondaryClimate = some dev →
      st.lastSecondaryMode ≠ HVACMode.off →
      inp.fails (Command.setHvacMode dev HVACMode.off) = false) :
    (turnOffDevices cfg st inp).ok = true := by
  simp only [turnOffDevices]
  by_cases h : st.lastMainMode ≠ HVACMode.off
  · rw [if_pos h]
    exact attempt_ok_chain inp st _ [] _ (k1 h)
      (fun a => turnOffSecondary_ok cfg _ inp a k2)
  · rw [if_neg h]
    exact turnOffSecondary_ok cfg st inp [] k2

/-- A target-absent cycle whose due OFF commands all succeed returns
normally. -/
theorem applyTemperature_ok_off (cfg : Config) (st : State)
    (inp : TickInput) (cur : ℚ)
    (hs : inp.sensorReading = some cur)
    (ht : st.targetTemperature = none)
    (k1 : st.lastMainMode ≠ HVACMode.off →
      inp.fails (Command.setHvacMode cfg.mainClimate HVACMode.off) = false)
    (k2 : ∀ dev, cfg.secondaryClimate = some dev →
      st.lastSecondaryMode ≠ HVACMode.off →
      inp.fails (Command.setHvacMode dev HVACMode.off) = false) :
    (applyTemperature cfg st inp).ok = true := by
  obtain ⟨tt, ct, pm, lmm, lmt, lsm, lst, lsw⟩ := st
  simp only [State.targetTemperature] at ht
  subst ht
  simp only [State.lastMainMode, State.lastSecondaryMode] at k1 k2
  simp only [applyTemperature, hs]
  exact turnOffDevices_ok cfg _ inp k1 k2

set_option maxHeartbeats 4000000 in
/-- A target-present cycle whose due commands all succeed returns
normally (the secondary hypotheses are only needed when the secondary
commit triggers). -/
theorem applyTemperature_ok_target (cfg : Config) (st : State)
    (inp : TickInput) (cur target : ℚ)
    (hs : inp.sensorReading = some cur)
    (ht : st.targetTemperature = some target)
    (k1 : (computeEffectiveMode cfg cur target inp.outdoorReading).1 ≠
        st.lastMainMode →
      inp.fails (Command.setHvacMode cfg.mainClimate
        (computeEffectiveMode cfg cur target inp.outdoorReading).1) = false)
    (k2 : (computeEffectiveMode cfg cur target inp.outdoorReading).1 ≠
        HVACMode.off →
      st.lastMainTemp ≠ some (target + cfg.primaryOffset) →
      inp.fails (Command.setTemperature cfg.mainClimate
        (target + cfg.primaryOffset)) = false)
    (k3 : ∀ dev, cfg.secondaryClimate = some dev →
      secondaryModeFor cfg
        (computeEffectiveMode cfg cur target inp.outdoorReading).1
        (computeEffectiveMode cfg cur target inp.outdoorReading).2 ≠
        st.lastSecondaryMode ∨
      (if secondaryModeFor cfg
          (computeEffectiveMode cfg cur target inp.outdoorReading).1
          (computeEffectiveMode cfg cur target inp.outdoorReading).2 ≠
          HVACMode.off then
        some (target + cfg.secondaryOffset) else none) ≠
        st.lastSecondaryTemp →
      secondaryModeFor cfg
        (computeEffectiveMode cfg cur target inp.outdoorReading).1
        (computeEffectiveMode cfg cur target inp.outdoorReading).2 ≠
        HVACMode.off →
      inp.fails (Command.setTemperature dev
        (target + cfg.secondaryOffset)) = false)
    (k4 : ∀ dev, cfg.secondaryClimate = some dev →
      secondaryModeFor cfg
        (computeEffectiveMode cfg cur target inp.outdoorReading).1
        (computeEffectiveMode cfg cur target inp.outdoorReading).2 ≠
        st.lastSecondaryMode ∨
      (if secondaryModeFor cfg
          (computeEffectiveMode cfg cur target inp.outdoorReading).1
          (computeEffectiveMode cfg cur target inp.outdoorReading).2 ≠
          HVACMode.off then
        some (target + cfg.secondaryOffset) else none) ≠
        st.lastSecondaryTemp →
      inp.fails (Command.setHvacMode dev (secondaryModeFor cfg
        (computeEffectiveMode cfg cur target inp.outdoorReading).1
        (computeEffectiveMode cfg cur target inp.outdoorReading).2)) =
        false) :
    (applyTemperature cfg st inp).ok = true := by
  obtain ⟨tt, ct, pm, lmm, lmt, lsm, lst, lsw⟩ := st
  simp only [State.targetTemperature] at ht
  subst ht
  simp only [State.lastMainMode, State.lastMainTemp,
    State.lastSecondaryMode, State.lastSecondaryTemp] at k1 k2 k3 k4
  simp only [applyTemperature, hs]
  exact commitMain_ok cfg _ inp
    (computeEffectiveMode cfg cur target inp.outdoorReading).1
    (computeEffectiveMode cfg cur target inp.outdoorReading).2 target
    k1 k2 k3 k4

set_option maxHeartbeats 4000000 in
/-- C10 (amended): every failing command send raises out of the
evaluate→commit cycle uncaught (`ok = false` — nothing in the controller
catches or logs it), aborting the rest of the cycle at that command (it is
the last one attempted); the last-commanded fields corresponding to the
failing command are not updated; and a next cycle with the same readings
whose transmissions succeed re-attempts that same command (at-least-once
delivery).  This covers a failing send of any of the cycle's commands:
main mode, main setpoint, secondary setpoint, secondary mode (also
mid-cycle, after earlier sends succeeded), and the OFF commands of the
target-absent branch. -/
theorem C10_failed_command_retry (cfg : Config) (st : State)
    (inp rinp : TickInput)
    (hdist : cfg.secondaryClimate ≠ some cfg.mainClimate)
    (hrs : rinp.sensorReading = inp.sensorReading)
    (hro : rinp.outdoorReading = inp.outdoorReading)
    (hrnf : ∀ c, rinp.fails c = false)
    (hfail : (applyTemperature cfg st inp).ok = false) :
    ∃ c, (applyTemperature cfg st inp).commands.getLast? = some c ∧
      inp.fails c = true ∧
      (applyTemperature cfg st inp).state.targetTemperature =
        st.targetTemperature ∧
      (∀ m, c = Command.setHvacMode cfg.mainClimate m →
        (applyTemperature cfg st inp).state.lastMainMode =
          st.lastMainMode) ∧
      (∀ t, c = Command.setTemperature cfg.mainClimate t →
        (applyTemperature cfg st inp).state.lastMainTemp =
          st.lastMainTemp) ∧
      (∀ dev, cfg.secondaryClimate = some dev → Command.entityId c = dev →
        (applyTemperature cfg st inp).state.lastSecondaryMode =
          st.lastSecondaryMode ∧
        (applyTemperature cfg st inp).state.lastSecondaryTemp =
          st.lastSecondaryTemp) ∧
      c ∈ (applyTemperature cfg (applyTemperature cfg st inp).state
        rinp).commands := by
  obtain ⟨tt, ct, pm, lmm, lmt, lsm, lst, lsw⟩ := st
  rcases hsr : inp.sensorReading with _ | cur
  · rw [applyTemperature_sensor_none cfg
      (State.mk tt ct pm lmm lmt lsm lst lsw) inp hsr] at hfail
    simp at hfail
  rcases tt with _ | target
  · -- target absent: only the two OFF commands can fail
    by_cases hA : lmm ≠ HVACMode.off ∧
        inp.fails (Command.setHvacMode cfg.mainClimate HVACMode.off) = true
    · rw [applyTemperature_off_main_fail cfg
        (State.mk none ct pm lmm lmt lsm lst lsw) inp cur hsr rfl hA.1 hA.2]
      refine ⟨Command.setHvacMode cfg.mainClimate HVACMode.off, rfl, hA.2,
        rfl, fun _ _ => rfl, fun _ _ => rfl, fun _ _ _ => ⟨rfl, rfl⟩, ?_⟩
      show Command.setHvacMode cfg.mainClimate HVACMode.off ∈
        (applyTemperature cfg
          (State.mk none (some cur) pm lmm lmt lsm lst lsw) rinp).commands
      rw [applyTemperature_target_none cfg
        (State.mk none (some cur) pm lmm lmt lsm lst lsw) rinp cur
        (by rw [hrs, hsr]) rfl hrnf]
      rcases hsec : cfg.secondaryClimate with _ | dev <;> simp [hA.1]
    · have k1 : lmm ≠ HVACMode.off →
          inp.fails (Command.setHvacMode cfg.mainClimate HVACMode.off) =
            false := by
        intro h
        by_contra hb
        exact hA ⟨h, by simpa using hb⟩
      rcases hsec : cfg.secondaryClimate with _ | dev
      · exfalso
        have hok := applyTemperature_ok_off cfg
          (State.mk none ct pm lmm lmt lsm lst lsw) inp cur hsr rfl k1
          (fun d hd => by rw [hsec] at hd; exact Option.noConfusion hd)
        rw [hfail] at hok
        exact Bool.noConfusion hok
      · by_cases hF : lsm ≠ HVACMode.off ∧
            inp.fails (Command.setHvacMode dev HVACMode.off) = true
        · rw [applyTemperature_off_secondary_fail cfg
            (State.mk none ct pm lmm lmt lsm lst lsw) inp cur dev hsr rfl
            k1 hsec hF.1 hF.2]
          refine ⟨Command.setHvacMode dev HVACMode.off, ?_, hF.2, rfl,
            ?_, fun t hcon => Command.noConfusion hcon,
            fun _ _ _ => ⟨rfl, rfl⟩, ?_⟩
          · split_ifs <;> rfl
          · intro m hcon
            injection hcon with h1 _
            rw [h1] at hsec
            exact absurd hsec hdist
          · show Command.setHvacMode dev HVACMode.off ∈
              (applyTemperature cfg
                (State.mk none (some cur) pm HVACMode.off lmt lsm lst lsw)
                rinp).commands
            rw [applyTemperature_target_none cfg
              (State.mk none (some cur) pm HVACMode.off lmt lsm lst lsw)
              rinp cur (by rw [hrs, hsr]) rfl hrnf]
            simp [hsec, hF.1]
        · exfalso
          have k2 : ∀ d, cfg.secondaryClimate = some d →
              lsm ≠ HVACMode.off →
              inp.fails (Command.setHvacMode d HVACMode.off) = false := by
            intro d hd h
            rw [hsec] at hd
            injection hd with hdd
            subst hdd
            by_contra hb
            exact hF ⟨h, by simpa using hb⟩
          have hok := applyTemperature_ok_off cfg
            (State.mk none ct pm lmm lmt lsm lst lsw) inp cur hsr rfl k1 k2
          rw [hfail] at hok
          exact Bool.noConfusion hok
  · -- target present
    by_cases hA : (computeEffectiveMode cfg cur target
          inp.outdoorReading).1 ≠ lmm ∧
        inp.fails (Command.setHvacMode cfg.mainClimate
          (computeEffectiveMode cfg cur target inp.outdoorReading).1) =
          true
    · rw [applyTemperature_main_mode_fail cfg
        (State.mk (some target) ct pm lmm lmt lsm lst lsw) inp cur target
        hsr rfl hA.1 hA.2]
      refine ⟨Command.setHvacMode cfg.mainClimate
        (computeEffectiveMode cfg cur target inp.outdoorReading).1, rfl,
        hA.2, rfl, fun _ _ => rfl, fun _ _ => rfl,
        fun _ _ _ => ⟨rfl, rfl⟩, ?_⟩
      show Command.setHvacMode cfg.mainClimate
          (computeEffectiveMode cfg cur target inp.outdoorReading).1 ∈
        (applyTemperature cfg
          (State.mk (some target) (some cur) pm lmm lmt lsm lst lsw)
          rinp).commands
      rw [applyTemperature_eval cfg
        (State.mk (some target) (some cur) pm lmm lmt lsm lst lsw) rinp
        cur target (by rw [hrs, hsr]) rfl hrnf]
      have hmem := evalCycle_mem_main_mode cfg
        (State.mk (some target) (some cur) pm lmm lmt lsm lst lsw) rinp
        cur target (by rw [hro]; exact hA.1)
      rw [hro] at hmem
      exact hmem
    · have k1 : (computeEffectiveMode cfg cur target
            inp.outdoorReading).1 ≠ lmm →
          inp.fails (Command.setHvacMode cfg.mainClimate
            (computeEffectiveMode cfg cur target inp.outdoorReading).1) =
            false := by
        intro h
        by_contra hb
        exact hA ⟨h, by simpa using hb⟩
      by_cases hB : (computeEffectiveMode cfg cur target
            inp.outdoorReading).1 ≠ HVACMode.off ∧
          lmt ≠ some (target + cfg.primaryOffset) ∧
          inp.fails (Command.setTemperature cfg.mainClimate
            (target + cfg.primaryOffset)) = true
      · rw [applyTemperature_main_temp_fail cfg
          (State.mk (some target) ct pm lmm lmt lsm lst lsw) inp cur
          target hsr rfl k1 hB.1 hB.2.1 hB.2.2]
        refine ⟨Command.setTemperature cfg.mainClimate
          (target + cfg.primaryOffset), ?_, hB.2.2, rfl,
          fun m hcon => Command.noConfusion hcon, fun _ _ => rfl,
          fun _ _ _ => ⟨rfl, rfl⟩, ?_⟩
        · split_ifs <;> rfl
        · show Command.setTemperature cfg.mainClimate
              (target + cfg.primaryOffset) ∈
            (applyTemperature cfg
              (State.mk (some target) (some cur) pm
                (computeEffectiveMode cfg cur target inp.outdoorReading).1
                lmt lsm lst lsw) rinp).commands
          rw [applyTemperature_eval cfg
            (State.mk (some target) (some cur) pm
              (computeEffectiveMode cfg cur target inp.outdoorReading).1
              lmt lsm lst lsw) rinp cur target (by rw [hrs, hsr]) rfl hrnf]
          exact evalCycle_mem_main_temp cfg
            (State.mk (some target) (some cur) pm
              (computeEffectiveMode cfg cur target inp.outdoorReading).1
              lmt lsm lst lsw) rinp cur target (by rw [hro]; exact hB.1)
            hB.2.1
      · have k2 : (computeEffectiveMode cfg cur target
              inp.outdoorReading).1 ≠ HVACMode.off →
            lmt ≠ some (target + cfg.primaryOffset) →
            inp.fails (Command.setTemperature cfg.mainClimate
              (target + cfg.primaryOffset)) = false := by
          intro h h2
          by_contra hb
          exact hB ⟨h, h2, by simpa using hb⟩
        rcases hsec : cfg.secondaryClimate with _ | dev
        · exfalso
          have hok := applyTemperature_ok_target cfg
            (State.mk (some target) ct pm lmm lmt lsm lst lsw) inp cur
            target hsr rfl k1 k2
            (fun d hd _ _ => by rw [hsec] at hd; exact Option.noConfusion hd)
            (fun d hd _ => by rw [hsec] at hd; exact Option.noConfusion hd)
          rw [hfail] at hok
          exact Bool.noConfusion hok
        · by_cases hC : secondaryModeFor cfg
              (computeEffectiveMode cfg cur target inp.outdoorReading).1
              (computeEffectiveMode cfg cur target inp.outdoorReading).2 ≠
              HVACMode.off ∧
              (secondaryModeFor cfg
                (computeEffectiveMode cfg cur target inp.outdoorReading).1
                (computeEffectiveMode cfg cur target
                  inp.outdoorReading).2 ≠ lsm ∨
                some (target + cfg.secondaryOffset) ≠ lst) ∧
              inp.fails (Command.setTemperature dev
                (target + cfg.secondaryOffset)) = true
          · rw [applyTemperature_secondary_temp_fail cfg
              (State.mk (some target) ct pm lmm lmt lsm lst lsw) inp cur
              target dev hsr rfl hsec k1 k2 hC.1 hC.2.1 hC.2.2]
            refine ⟨Command.setTemperature dev
              (target + cfg.secondaryOffset), ?_, hC.2.2, rfl,
              fun m hcon => Command.noConfusion hcon, ?_,
              fun _ _ _ => ⟨rfl, rfl⟩, ?_⟩
            · split_ifs <;> rfl
            · intro t hcon
              injection hcon with h1 _
              rw [h1] at hsec
              exact absurd hsec hdist
            · show Command.setTemperature dev
                  (target + cfg.secondaryOffset) ∈
                (applyTemperature cfg
                  (State.mk (some target) (some cur) pm
                    (computeEffectiveMode cfg cur target
                      inp.outdoorReading).1
                    (some (target + cfg.primaryOffset)) lsm lst lsw)
                  rinp).commands
              rw [applyTemperature_eval cfg
                (State.mk (some target) (some cur) pm
                  (computeEffectiveMode cfg cur target
                    inp.outdoorReading).1
                  (some (target + cfg.primaryOffset)) lsm lst lsw) rinp
                cur target (by rw [hrs, hsr]) rfl hrnf]
              exact evalCycle_mem_secondary_temp cfg
                (State.mk (some target) (some cur) pm
                  (computeEffectiveMode cfg cur target
                    inp.outdoorReading).1
                  (some (target + cfg.primaryOffset)) lsm lst lsw) rinp
                cur target dev hsec (by rw [hro]; exact hC.1)
                (by rw [hro]; exact hC.2.1)
          · by_cases hD : (secondaryModeFor cfg
                (computeEffectiveMode cfg cur target inp.outdoorReading).1
                (computeEffectiveMode cfg cur target
                  inp.outdoorReading).2 ≠ lsm ∨
                (if secondaryModeFor cfg
                    (computeEffectiveMode cfg cur target
                      inp.outdoorReading).1
                    (computeEffectiveMode cfg cur target
                      inp.outdoorReading).2 ≠ HVACMode.off then
                  some (target + cfg.secondaryOffset) else none) ≠ lst) ∧
                inp.fails (Command.setHvacMode dev (secondaryModeFor cfg
                  (computeEffectiveMode cfg cur target
                    inp.outdoorReading).1
                  (computeEffectiveMode cfg cur target
                    inp.outdoorReading).2)) = true
            · have hok3 : secondaryModeFor cfg
                  (computeEffectiveMode cfg cur target
                    inp.outdoorReading).1
                  (computeEffectiveMode cfg cur target
                    inp.outdoorReading).2 ≠ HVACMode.off →
                  inp.fails (Command.setTemperature dev
                    (target + cfg.secondaryOffset)) = false := by
                intro hsm2
                by_contra hb
                refine hC ⟨hsm2, ?_, by simpa using hb⟩
                have htr := hD.1
                rw [if_pos hsm2] at htr
                exact htr
              rw [applyTemperature_secondary_mode_fail cfg
                (State.mk (some target) ct pm lmm lmt lsm lst lsw) inp
                cur target dev hsr rfl hsec k1 k2 hok3 hD.1 hD.2]
              refine ⟨Command.setHvacMode dev (secondaryModeFor cfg
                (computeEffectiveMode cfg cur target inp.outdoorReading).1
                (computeEffectiveMode cfg cur target
                  inp.outdoorReading).2), ?_, hD.2, rfl, ?_,
                fun t hcon => Command.noConfusion hcon,
                fun _ _ _ => ⟨rfl, rfl⟩, ?_⟩
              · split_ifs <;> rfl
              · intro m hcon
                injection hcon with h1 _
                rw [h1] at hsec
                exact absurd hsec hdist
              · show Command.setHvacMode dev (secondaryModeFor cfg
                    (computeEffectiveMode cfg cur target
                      inp.outdoorReading).1
                    (computeEffectiveMode cfg cur target
                      inp.outdoorReading).2) ∈
                  (applyTemperature cfg
                    (State.mk (some target) (some cur) pm
                      (computeEffectiveMode cfg cur target
                        inp.outdoorReading).1
                      (if (computeEffectiveMode cfg cur target
                          inp.outdoorReading).1 ≠ HVACMode.off then
                        some (target + cfg.primaryOffset)
                      else lmt) lsm lst lsw) rinp).commands
                rw [applyTemperature_eval cfg
                  (State.mk (some target) (some cur) pm
                    (computeEffectiveMode cfg cur target
                      inp.outdoorReading).1
                    (if (computeEffectiveMode cfg cur target
                        inp.outdoorReading).1 ≠ HVACMode.off then
                      some (target + cfg.primaryOffset)
                    else lmt) lsm lst lsw) rinp cur target
                  (by rw [hrs, hsr]) rfl hrnf]
                have hmem := evalCycle_mem_secondary_mode cfg
                  (State.mk (some target) (some cur) pm
                    (computeEffectiveMode cfg cur target
                      inp.outdoorReading).1
                    (if (computeEffectiveMode cfg cur target
                        inp.outdoorReading).1 ≠ HVACMode.off then
                      some (target + cfg.primaryOffset)
                    else lmt) lsm lst lsw) rinp cur target dev hsec
                  (by rw [hro]; exact hD.1)
                rw [hro] at hmem
                exact hmem
            · exfalso
              have k3 : ∀ d, cfg.secondaryClimate = some d →
                  secondaryModeFor cfg
                    (computeEffectiveMode cfg cur target
                      inp.outdoorReading).1
                    (computeEffectiveMode cfg cur target
                      inp.outdoorReading).2 ≠ lsm ∨
                  (if secondaryModeFor cfg
                      (computeEffectiveMode cfg cur target
                        inp.outdoorReading).1
                      (computeEffectiveMode cfg cur target
                        inp.outdoorReading).2 ≠ HVACMode.off then
                    some (target + cfg.secondaryOffset) else none) ≠ lst →
                  secondaryModeFor cfg
                    (computeEffectiveMode cfg cur target
                      inp.outdoorReading).1
                    (computeEffectiveMode cfg cur target
                      inp.outdoorReading).2 ≠ HVACMode.off →
                  inp.fails (Command.setTemperature d
                    (target + cfg.secondaryOffset)) = false := by
                intro d hd htr hsm2
                rw [hsec] at hd
                injection hd with hdd
                subst hdd
                by_contra hb
                refine hC ⟨hsm2, ?_, by simpa using hb⟩
                rw [if_pos hsm2] at htr
                exact htr
              have k4 : ∀ d, cfg.secondaryClimate = some d →
                  secondaryModeFor cfg
                    (computeEffectiveMode cfg cur target
                      inp.outdoorReading).1
                    (computeEffectiveMode cfg cur target
                      inp.outdoorReading).2 ≠ lsm ∨
                  (if secondaryModeFor cfg
                      (computeEffectiveMode cfg cur target
                        inp.outdoorReading).1
                      (computeEffectiveMode cfg cur target
                        inp.outdoorReading).2 ≠ HVACMode.off then
                    some (target + cfg.secondaryOffset) else none) ≠ lst →
                  inp.fails (Command.setHvacMode d (secondaryModeFor cfg
                    (computeEffectiveMode cfg cur target
                      inp.outdoorReading).1
                    (computeEffectiveMode cfg cur target
                      inp.outdoorReading).2)) = false := by
                intro d hd htr
                rw [hsec] at hd
                injection hd with hdd
                subst hdd
                by_contra hb
                exact hD ⟨htr, by simpa using hb⟩
              have hok := applyTemperature_ok_target cfg
                (State.mk (some target) ct pm lmm lmt lsm lst lsw) inp
                cur target hsr rfl k1 k2 k3 k4
              rw [hfail] at hok
              exact Bool.noConfusion hok

/-- Witness for C10: against `stHeating` the cycle's plan is the two
secondary commands; `inpFailSec` makes the second of them — the secondary
mode command, sent mid-cycle after the secondary setpoint succeeded —
fail, and the next tick with the same readings and working transport
re-attempts it. -/
theorem C10_failed_command_retry_witness :
    ∃ c, (applyTemperature cfgPlain stHeating
        inpFailSec).commands.getLast? = some c ∧
      inpFailSec.fails c = true ∧
      (applyTemperature cfgPlain stHeating
        inpFailSec).state.targetTemperature =
        stHeating.targetTemperature ∧
      (∀ m, c = Command.setHvacMode cfgPlain.mainClimate m →
        (applyTemperature cfgPlain stHeating inpFailSec).state.lastMainMode
          = stHeating.lastMainMode) ∧
      (∀ t, c = Command.setTemperature cfgPlain.mainClimate t →
        (applyTemperature cfgPlain stHeating inpFailSec).state.lastMainTemp
          = stHeating.lastMainTemp) ∧
      (∀ dev, cfgPlain.secondaryClimate = some dev →
        Command.entityId c = dev →
        (applyTemperature cfgPlain stHeating
          inpFailSec).state.lastSecondaryMode =
          stHeating.lastSecondaryMode ∧
        (applyTemperature cfgPlain stHeating
          inpFailSec).state.lastSecondaryTemp =
          stHeating.lastSecondaryTemp) ∧
      c ∈ (applyTemperature cfgPlain
        (applyTemperature cfgPlain stHeating inpFailSec).state
        inpOk).commands :=
  C10_failed_command_retry cfgPlain stHeating inpFailSec inpOk (by decide)
    rfl rfl (fun _ => rfl)
    (by
      norm_num [applyTemperature, cfgPlain, stHeating, inpFailSec,
        commitMain, commitMainTemp, commitSecondary, sendSecondary,
        commitSwitchTime, attempt, computeEffectiveMode, secondaryModeFor]
      simp)

/-! ## C8 — no configured secondary device: frame and non-interference -/

theorem setSec_self (st : State) :
    setSec st st.lastSecondaryMode st.lastSecondaryTemp = st := by
  cases st
  rfl

theorem commitSwitchTime_setSec (st : State) (inp : TickInput)
    (acc : List Command) (em : HVACMode) (m : HVACMode) (t : Option ℚ) :
    commitSwitchTime (setSec st m t) inp acc em =
      ⟨setSec (commitSwitchTime st inp acc em).state m t,
       (commitSwitchTime st inp acc em).commands,
       (commitSwitchTime st inp acc em).ok⟩ := by
  obtain ⟨tt, ct, pm, lmm, lmt, lsm, lst, lsw⟩ := st
  simp only [commitSwitchTime, setSec]
  split_ifs <;> rfl

theorem attempt_setSec (inp : TickInput) (st : State) (c : Command)
    (acc : List Command) (k k2 : List Command → StepResult)
    (m : HVACMode) (t : Option ℚ)
    (hk : ∀ a, k2 a = ⟨setSec (k a).state m t, (k a).commands, (k a).ok⟩) :
    attempt inp (setSec st m t) c acc k2 =
      ⟨setSec (attempt inp st c acc k).state m t,
       (attempt inp st c acc k).commands,
       (attempt inp st c acc k).ok⟩ := by
  unfold attempt
  split_ifs
  · rfl
  · exact hk _

theorem commitSecondary_setSec (cfg : Config) (st : State) (inp : TickInput)
    (acc : List Command) (em : HVACMode) (diff target : ℚ)
    (m : HVACMode) (t : Option ℚ) (hsec : cfg.secondaryClimate = none) :
    commitSecondary cfg (setSec st m t) inp acc em diff target =
      ⟨setSec (commitSecondary cfg st inp acc em diff target).state m t,
       (commitSecondary cfg st inp acc em diff target).commands,
       (commitSecondary cfg st inp acc em diff target).ok⟩ := by
  simp only [commitSecondary, hsec]
  exact commitSwitchTime_setSec st inp acc em m t

theorem commitMainTemp_setSec (cfg : Config) (st : State) (inp : TickInput)
    (acc : List Command) (em : HVACMode) (diff target : ℚ)
    (m : HVACMode) (t : Option ℚ) (hsec : cfg.secondaryClimate = none) :
    commitMainTemp cfg (setSec st m t) inp acc em diff target =
      ⟨setSec (commitMainTemp cfg st inp acc em diff target).state m t,
       (commitMainTemp cfg st inp acc em diff target).commands,
       (commitMainTemp cfg st inp acc em diff target).ok⟩ := by
  obtain ⟨tt, ct, pm, lmm, lmt, lsm, lst, lsw⟩ := st
  simp only [commitMainTemp, setSec]
  split_ifs
  · refine attempt_setSec inp (State.mk tt ct pm lmm lmt lsm lst lsw) _ acc
      _ _ m t ?_
    intro a
    exact commitSecondary_setSec cfg
      (State.mk tt ct pm lmm (some (target + cfg.primaryOffset)) lsm lst lsw)
      inp a em diff target m t hsec
  · exact commitSecondary_setSec cfg
      (State.mk tt ct pm lmm lmt lsm lst lsw) inp acc em diff target m t hsec
  · exact commitSecondary_setSec cfg
      (State.mk tt ct pm lmm lmt lsm lst lsw) inp acc em diff target m t hsec

theorem commitMain_setSec (cfg : Config) (st : State) (inp : TickInput)
    (em : HVACMode) (diff target : ℚ)
    (m : HVACMode) (t : Option ℚ) (hsec : cfg.secondaryClimate = none) :
    commitMain cfg (setSec st m t) inp em diff target =
      ⟨setSec (commitMain cfg st inp em diff target).state m t,
       (commitMain cfg st inp em diff target).commands,
       (commitMain cfg st inp em diff target).ok⟩ := by
  obtain ⟨tt, ct, pm, lmm, lmt, lsm, lst, lsw⟩ := st
  simp only [commitMain, setSec]
  split_ifs
  · refine attempt_setSec inp (State.mk tt ct pm lmm lmt lsm lst lsw) _ []
      _ _ m t ?_
    intro a
    exact commitMainTemp_setSec cfg
      (State.mk tt ct pm em lmt lsm lst lsw) inp a em diff target m t hsec
  · exact commitMainTemp_setSec cfg
      (State.mk tt ct pm lmm lmt lsm lst lsw) inp [] em diff target m t hsec

theorem turnOffSecondary_setSec (cfg : Config) (st : State)
    (inp : TickInput) (acc : List Command)
    (m : HVACMode) (t : Option ℚ) (hsec : cfg.secondaryClimate = none) :
    turnOffSecondary cfg (setSec st m t) inp acc =
      ⟨setSec (turnOffSecondary cfg st inp acc).state m t,
       (turnOffSecondary cfg st inp acc).commands,
       (turnOffSecondary cfg st inp acc).ok⟩ := by
  simp only [turnOffSecondary, hsec]

theorem turnOffDevices_setSec (cfg : Config) (st : State) (inp : TickInput)
    (m : HVACMode) (t : Option ℚ) (hsec : cfg.secondaryClimate = none) :
    turnOffDevices cfg (setSec st m t) inp =
      ⟨setSec (turnOffDevices cfg st inp).state m t,
       (turnOffDevices cfg st inp).commands,
       (turnOffDevices cfg st inp).ok⟩ := by
  obtain ⟨tt, ct, pm, lmm, lmt, lsm, lst, lsw⟩ := st
  simp only [turnOffDevices, setSec]
  split_ifs
  · refine attempt_setSec inp (State.mk tt ct pm lmm lmt lsm lst lsw) _ []
      _ _ m t ?_
    intro a
    exact turnOffSecondary_setSec cfg
      (State.mk tt ct pm HVACMode.off lmt lsm lst lsw) inp a m t hsec
  · exact turnOffSecondary_setSec cfg
      (State.mk tt ct pm lmm lmt lsm lst lsw) inp [] m t hsec

theorem applyTemperature_setSec (cfg : Config) (st : State)
    (inp : TickInput) (m : HVACMode) (t : Option ℚ)
    (hsec : cfg.secondaryClimate = none) :
    applyTemperature cfg (setSec st m t) inp =
      ⟨setSec (applyTemperature cfg st inp).state m t,
       (applyTemperature cfg st inp).commands,
       (applyTemperature cfg st inp).ok⟩ := by
  obtain ⟨tt, ct, pm, lmm, lmt, lsm, lst, lsw⟩ := st
  simp only [applyTemperature, setSec]
  rcases inp.sensorReading with _ | cur
  · rfl
  rcases tt with _ | target
  · exact turnOffDevices_setSec cfg
      (State.mk none (some cur) pm lmm lmt lsm lst lsw) inp m t hsec
  · exact commitMain_setSec cfg
      (State.mk (some target) (some cur) pm lmm lmt lsm lst lsw) inp _ _
      target m t hsec

theorem handleEvent_setSec (cfg : Config) (st : State) (e : Event)
    (m : HVACMode) (t : Option ℚ) (hsec : cfg.secondaryClimate = none) :
    handleEvent cfg (setSec st m t) e =
      ⟨setSec (handleEvent cfg st e).state m t,
       (handleEvent cfg st e).commands,
       (handleEvent cfg st e).ok⟩ := by
  obtain ⟨tt, ct, pm, lmm, lmt, lsm, lst, lsw⟩ := st
  cases e with
  | tick inp =>
    exact applyTemperature_setSec cfg
      (State.mk tt ct pm lmm lmt lsm lst lsw) inp m t hsec
  | setTarget temp inp =>
    rcases temp with _ | tv
    · rfl
    · simp only [handleEvent, setSec]
      exact applyTemperature_setSec cfg
        (State.mk (some tv) ct pm lmm lmt lsm lst lsw) inp m t hsec
  | setPreset p inp =>
    simp only [handleEvent, setSec]
    split_ifs
    · rfl
    · exact applyTemperature_setSec cfg
        (State.mk
          (resolvePresetTarget cfg.heatingPresets cfg.coolingPresets p
            inp.sensorReading tt)
          ct p lmm lmt lsm lst lsw) inp m t hsec

theorem run_setSec (cfg : Config) (st : State) (es : List Event)
    (m : HVACMode) (t : Option ℚ) (hsec : cfg.secondaryClimate = none) :
    run cfg (setSec st m t) es =
      (setSec (run cfg st es).1 m t, (run cfg st es).2) := by
  induction es generalizing st with
  | nil => rfl
  | cons e rest ih =>
    simp only [run]
    rw [handleEvent_setSec cfg st e m t hsec]
    rw [ih (handleEvent cfg st e).state]

theorem commitSwitchTime_entity (st : State) (inp : TickInput)
    (acc : List Command) (em : HVACMode) (d : String)
    (h : ∀ c ∈ acc, Command.entityId c = d) :
    ∀ c ∈ (commitSwitchTime st inp acc em).commands,
      Command.entityId c = d := by
  unfold commitSwitchTime
  split_ifs <;> exact h

theorem attempt_entity (inp : TickInput) (st : State) (c0 : Command)
    (acc : List Command) (k : List Command → StepResult) (d : String)
    (hc0 : Command.entityId c0 = d)
    (h : ∀ c ∈ acc, Command.entityId c = d)
    (hk : ∀ a, (∀ c ∈ a, Command.entityId c = d) →
      ∀ c ∈ (k a).commands, Command.entityId c = d) :
    ∀ c ∈ (attempt inp st c0 acc k).commands, Command.entityId c = d := by
  have hall : ∀ c ∈ acc ++ [c0], Command.entityId c = d := by
    intro c hc
    rcases List.mem_append.mp hc with h1 | h1
    · exact h c h1
    · rw [List.mem_singleton.mp h1]
      exact hc0
  unfold attempt
  split_ifs
  · exact hall
  · exact hk _ hall

theorem commitSecondary_entity (cfg : Config) (st : State) (inp : TickInput)
    (acc : List Command) (em : HVACMode) (diff target : ℚ) (d : String)
    (hsec : cfg.secondaryClimate = none)
    (h : ∀ c ∈ acc, Command.entityId c = d) :
    ∀ c ∈ (commitSecondary cfg st inp acc em diff target).commands,
      Command.entityId c = d := by
  simp only [commitSecondary, hsec]
  exact commitSwitchTime_entity st inp acc em d h

theorem commitMainTemp_entity (cfg : Config) (st : State) (inp : TickInput)
    (acc : List Command) (em : HVACMode) (diff target : ℚ)
    (hsec : cfg.secondaryClimate = none)
    (h : ∀ c ∈ acc, Command.entityId c = cfg.mainClimate) :
    ∀ c ∈ (commitMainTemp cfg st inp acc em diff target).commands,
      Command.entityId c = cfg.mainClimate := by
  simp only [commitMainTemp]
  split_ifs
  · refine attempt_entity inp st _ acc _ cfg.mainClimate rfl h ?_
    intro a ha
    exact commitSecondary_entity cfg _ inp a em diff target _ hsec ha
  · exact commitSecondary_entity cfg st inp acc em diff target _ hsec h
  · exact commitSecondary_entity cfg st inp acc em diff target _ hsec h

theorem commitMain_entity (cfg : Config) (st : State) (inp : TickInput)
    (em : HVACMode) (diff target : ℚ)
    (hsec : cfg.secondaryClimate = none) :
    ∀ c ∈ (commitMain cfg st inp em diff target).commands,
      Command.entityId c = cfg.mainClimate := by
  simp only [commitMain]
  split_ifs
  · refine attempt_entity inp st _ [] _ cfg.mainClimate rfl (by simp) ?_
    intro a ha
    exact commitMainTemp_entity cfg _ inp a em diff target hsec ha
  · exact commitMainTemp_entity cfg st inp [] em diff target hsec (by simp)

theorem turnOffDevices_entity (cfg : Config) (st : State) (inp : TickInput)
    (hsec : cfg.secondaryClimate = none) :
    ∀ c ∈ (turnOffDevices cfg st inp).commands,
      Command.entityId c = cfg.mainClimate := by
  simp only [turnOffDevices, turnOffSecondary, hsec]
  split_ifs
  · refine attempt_entity inp st _ [] _ cfg.mainClimate rfl (by simp) ?_
    intro a ha
    exact ha
  · simp

theorem applyTemperature_entity (cfg : Config) (st : State)
    (inp : TickInput) (hsec : cfg.secondaryClimate = none) :
    ∀ c ∈ (applyTemperature cfg st inp).commands,
      Command.entityId c = cfg.mainClimate := by
  obtain ⟨tt, ct, pm, lmm, lmt, lsm, lst, lsw⟩ := st
  simp only [applyTemperature]
  rcases inp.sensorReading with _ | cur
  · simp
  rcases tt with _ | target
  · exact turnOffDevices_entity cfg _ inp hsec
  · exact commitMain_entity cfg _ inp _ _ target hsec

theorem handleEvent_entity (cfg : Config) (st : State) (e : Event)
    (hsec : cfg.secondaryClimate = none) :
    ∀ c ∈ (handleEvent cfg st e).commands,
      Command.entityId c = cfg.mainClimate := by
  cases e with
  | tick inp => exact applyTemperature_entity cfg st inp hsec
  | setTarget temp inp =>
    rcases temp with _ | tv
    · simp [handleEvent]
    · exact applyTemperature_entity cfg _ inp hsec
  | setPreset p inp =>
    simp only [handleEvent]
    split_ifs
    · simp
    · exact applyTemperature_entity cfg _ inp hsec

theorem run_entity (cfg : Config) (st : State) (es : List Event)
    (hsec : cfg.secondaryClimate = none) :
    ∀ c ∈ (run cfg st es).2, Command.entityId c = cfg.mainClimate := by
  induction es generalizing st with
  | nil => simp [run]
  | cons e rest ih =>
    simp only [run]
    intro c hc
    rcases List.mem_append.mp hc with h1 | h1
    · exact handleEvent_entity cfg st e hsec c h1
    · exact ih (handleEvent cfg st e).state c h1

/-- C8 (confirmed): with no secondary device configured, under every input
sequence (ticks, manual setpoints, preset changes, with arbitrary sensor
readings and even failing service calls) the secondary bookkeeping fields
are never written (they survive any run unchanged), every command issued is
addressed to the main device, and the fields are never read: overwriting
them with arbitrary values changes nothing observable — the run produces
the same commands and the same state apart from the overwritten fields. -/
theorem C8_no_secondary_frame (cfg : Config) (st : State) (es : List Event)
    (hsec : cfg.secondaryClimate = none) :
    (run cfg st es).1.lastSecondaryMode = st.lastSecondaryMode ∧
    (run cfg st es).1.lastSecondaryTemp = st.lastSecondaryTemp ∧
    (∀ c ∈ (run cfg st es).2, Command.entityId c = cfg.mainClimate) ∧
    (∀ m t, run cfg (setSec st m t) es =
      (setSec (run cfg st es).1 m t, (run cfg st es).2)) := by
  have hframe := run_setSec cfg st es st.lastSecondaryMode
    st.lastSecondaryTemp hsec
  rw [setSec_self st] at hframe
  refine ⟨?_, ?_, run_entity cfg st es hsec,
    fun m t => run_setSec cfg st es m t hsec⟩
  · rw [hframe]
    rfl
  · rw [hframe]
    rfl

/-- Witness for C8: `cfgSolo` (no secondary configured) over a two-event
sequence: a tick, then a manual setpoint change. -/
theorem C8_no_secondary_frame_witness :
    (run cfgSolo stIdle [Event.tick inpOk,
        Event.setTarget (some 18) inpOk]).1.lastSecondaryMode =
      stIdle.lastSecondaryMode ∧
    (run cfgSolo stIdle [Event.tick inpOk,
        Event.setTarget (some 18) inpOk]).1.lastSecondaryTemp =
      stIdle.lastSecondaryTemp ∧
    (∀ c ∈ (run cfgSolo stIdle [Event.tick inpOk,
        Event.setTarget (some 18) inpOk]).2,
      Command.entityId c = cfgSolo.mainClimate) ∧
    (∀ m t, run cfgSolo (setSec stIdle m t)
        [Event.tick inpOk, Event.setTarget (some 18) inpOk] =
      (setSec (run cfgSolo stIdle
          [Event.tick inpOk, Event.setTarget (some 18) inpOk]).1 m t,
        (run cfgSolo stIdle
          [Event.tick inpOk, Event.setTarget (some 18) inpOk]).2)) :=
  C8_no_secondary_frame cfgSolo stIdle
    [Event.tick inpOk, Event.setTarget (some 18) inpOk] rfl

/-! ## C9 — minimum runtime and last-switch time never influence commands -/

theorem setMin_secondaryClimate (cfg : Config) (r : ℚ) :
    (setMin cfg r).secondaryClimate = cfg.secondaryClimate := rfl

theorem setMin_mainClimate (cfg : Config) (r : ℚ) :
    (setMin cfg r).mainClimate = cfg.mainClimate := rfl

theorem setMin_primaryOffset (cfg : Config) (r : ℚ) :
    (setMin cfg r).primaryOffset = cfg.primaryOffset := rfl

theorem setMin_secondaryOffset (cfg : Config) (r : ℚ) :
    (setMin cfg r).secondaryOffset = cfg.secondaryOffset := rfl

theorem setMin_heatingPresets (cfg : Config) (r : ℚ) :
    (setMin cfg r).heatingPresets = cfg.heatingPresets := rfl

theorem setMin_coolingPresets (cfg : Config) (r : ℚ) :
    (setMin cfg r).coolingPresets = cfg.coolingPresets := rfl

theorem computeEffectiveMode_setMin (cfg : Config) (r : ℚ)
    (current target : ℚ) (o : Option ℚ) :
    computeEffectiveMode (setMin cfg r) current target o =
      computeEffectiveMode cfg current target o := rfl

theorem secondaryModeFor_setMin (cfg : Config) (r : ℚ) (em : HVACMode)
    (diff : ℚ) :
    secondaryModeFor (setMin cfg r) em diff =
      secondaryModeFor cfg em diff := rfl

theorem commitSwitchTime_minSwitch (st : State) (inp : TickInput)
    (acc : List Command) (em : HVACMode) (τ : ℚ) :
    ∃ τ2, commitSwitchTime (setSwitch st τ) inp acc em =
      ⟨setSwitch (commitSwitchTime st inp acc em).state τ2,
       (commitSwitchTime st inp acc em).commands,
       (commitSwitchTime st inp acc em).ok⟩ := by
  obtain ⟨tt, ct, pm, lmm, lmt, lsm, lst, lsw⟩ := st
  simp only [commitSwitchTime, setSwitch]
  split_ifs
  · exact ⟨inp.now, rfl⟩
  · exact ⟨τ, rfl⟩

theorem attempt_minSwitch (inp : TickInput) (st : State) (c : Command)
    (acc : List Command) (k k2 : List Command → StepResult) (τ : ℚ)
    (hk : ∀ a, ∃ τ2, k2 a =
      ⟨setSwitch (k a).state τ2, (k a).commands, (k a).ok⟩) :
    ∃ τ2, attempt inp (setSwitch st τ) c acc k2 =
      ⟨setSwitch (attempt inp st c acc k).state τ2,
       (attempt inp st c acc k).commands,
       (attempt inp st c acc k).ok⟩ := by
  unfold attempt
  split_ifs
  · exact ⟨τ, rfl⟩
  · exact hk _

theorem sendSecondary_minSwitch (inp : TickInput) (st : State)
    (dev : String) (mode : HVACMode) (temp : Option ℚ) (acc : List Command)
    (k k2 : List Command → StepResult) (τ : ℚ)
    (hk : ∀ a, ∃ τ2, k2 a =
      ⟨setSwitch (k a).state τ2, (k a).commands, (k a).ok⟩) :
    ∃ τ2, sendSecondary inp (setSwitch st τ) dev mode temp acc k2 =
      ⟨setSwitch (sendSecondary inp st dev mode temp acc k).state τ2,
       (sendSecondary inp st dev mode temp acc k).commands,
       (sendSecondary inp st dev mode temp acc k).ok⟩ := by
  rcases temp with _ | tv <;> simp only [sendSecondary]
  · exact attempt_minSwitch inp st _ acc k k2 τ hk
  · split_ifs
    · refine attempt_minSwitch inp st _ acc _ _ τ ?_
      intro a
      exact attempt_minSwitch inp st _ a k k2 τ hk
    · exact attempt_minSwitch inp st _ acc k k2 τ hk

theorem commitSecondary_minSwitch (cfg : Config) (st : State)
    (inp : TickInput) (acc : List Command) (em : HVACMode)
    (diff target r τ : ℚ) :
    ∃ τ2, commitSecondary (setMin cfg r) (setSwitch st τ) inp acc em diff
        target =
      ⟨setSwitch (commitSecondary cfg st inp acc em diff target).state τ2,
       (commitSecondary cfg st inp acc em diff target).commands,
       (commitSecondary cfg st inp acc em diff target).ok⟩ := by
  obtain ⟨tt, ct, pm, lmm, lmt, lsm, lst, lsw⟩ := st
  rcases hsec : cfg.secondaryClimate with _ | dev
  · simp only [commitSecondary, setMin_secondaryClimate, hsec]
    exact commitSwitchTime_minSwitch
      (State.mk tt ct pm lmm lmt lsm lst lsw) inp acc em τ
  · simp only [commitSecondary, setMin_secondaryClimate, hsec,
      secondaryModeFor_setMin, setMin_secondaryOffset, setSwitch]
    split_ifs
    · refine sendSecondary_minSwitch inp
        (State.mk tt ct pm lmm lmt lsm lst lsw) dev _ _ acc _ _ τ ?_
      intro a
      exact commitSwitchTime_minSwitch
        (State.mk tt ct pm lmm lmt (secondaryModeFor cfg em diff)
          (some (target + cfg.secondaryOffset)) lsw) inp a em τ
    · exact commitSwitchTime_minSwitch
        (State.mk tt ct pm lmm lmt lsm lst lsw) inp acc em τ
    · refine sendSecondary_minSwitch inp
        (State.mk tt ct pm lmm lmt lsm lst lsw) dev _ _ acc _ _ τ ?_
      intro a
      exact commitSwitchTime_minSwitch
        (State.mk tt ct pm lmm lmt (secondaryModeFor cfg em diff) none lsw)
        inp a em τ
    · exact commitSwitchTime_minSwitch
        (State.mk tt ct pm lmm lmt lsm lst lsw) inp acc em τ

theorem commitMainTemp_minSwitch (cfg : Config) (st : State)
    (inp : TickInput) (acc : List Command) (em : HVACMode)
    (diff target r τ : ℚ) :
    ∃ τ2, commitMainTemp (setMin cfg r) (setSwitch st τ) inp acc em diff
        target =
      ⟨setSwitch (commitMainTemp cfg st inp acc em diff target).state τ2,
       (commitMainTemp cfg st inp acc em diff target).commands,
       (commitMainTemp cfg st inp acc em diff target).ok⟩ := by
  obtain ⟨tt, ct, pm, lmm, lmt, lsm, lst, lsw⟩ := st
  simp only [commitMainTemp, setMin_primaryOffset, setMin_mainClimate,
    setSwitch]
  split_ifs
  · refine attempt_minSwitch inp (State.mk tt ct pm lmm lmt lsm lst lsw) _
      acc _ _ τ ?_
    intro a
    exact commitSecondary_minSwitch cfg
      (State.mk tt ct pm lmm (some (target + cfg.primaryOffset)) lsm lst lsw)
      inp a em diff target r τ
  · exact commitSecondary_minSwitch cfg
      (State.mk tt ct pm lmm lmt lsm lst lsw) inp acc em diff target r τ
  · exact commitSecondary_minSwitch cfg
      (State.mk tt ct pm lmm lmt lsm lst lsw) inp acc em diff target r τ

theorem commitMain_minSwitch (cfg : Config) (st : State) (inp : TickInput)
    (em : HVACMode) (diff target r τ : ℚ) :
    ∃ τ2, commitMain (setMin cfg r) (setSwitch st τ) inp em diff target =
      ⟨setSwitch (commitMain cfg st inp em diff target).state τ2,
       (commitMain cfg st inp em diff target).commands,
       (commitMain cfg st inp em diff target).ok⟩ := by
  obtain ⟨tt, ct, pm, lmm, lmt, lsm, lst, lsw⟩ := st
  simp only [commitMain, setMin_mainClimate, setSwitch]
  split_ifs
  · refine attempt_minSwitch inp (State.mk tt ct pm lmm lmt lsm lst lsw) _
      [] _ _ τ ?_
    intro a
    exact commitMainTemp_minSwitch cfg
      (State.mk tt ct pm em lmt lsm lst lsw) inp a em diff target r τ
  · exact commitMainTemp_minSwitch cfg
      (State.mk tt ct pm lmm lmt lsm lst lsw) inp [] em diff target r τ

theorem turnOffSecondary_minSwitch (cfg : Config) (st : State)
    (inp : TickInput) (acc : List Command) (r τ : ℚ) :
    ∃ τ2, turnOffSecondary (setMin cfg r) (setSwitch st τ) inp acc =
      ⟨setSwitch (turnOffSecondary cfg st inp acc).state τ2,
       (turnOffSecondary cfg st inp acc).commands,
       (turnOffSecondary cfg st inp acc).ok⟩ := by
  obtain ⟨tt, ct, pm, lmm, lmt, lsm, lst, lsw⟩ := st
  rcases hsec : cfg.secondaryClimate with _ | dev
  · simp only [turnOffSecondary, setMin_secondaryClimate, hsec]
    exact ⟨τ, rfl⟩
  · simp only [turnOffSecondary, setMin_secondaryClimate, hsec, setSwitch]
    split_ifs
    · refine sendSecondary_minSwitch inp
        (State.mk tt ct pm lmm lmt lsm lst lsw) dev HVACMode.off none acc
        _ _ τ ?_
      intro a
      exact ⟨τ, rfl⟩
    · exact ⟨τ, rfl⟩

theorem turnOffDevices_minSwitch (cfg : Config) (st : State)
    (inp : TickInput) (r τ : ℚ) :
    ∃ τ2, turnOffDevices (setMin cfg r) (setSwitch st τ) inp =
      ⟨setSwitch (turnOffDevices cfg st inp).state τ2,
       (turnOffDevices cfg st inp).commands,
       (turnOffDevices cfg st inp).ok⟩ := by
  obtain ⟨tt, ct, pm, lmm, lmt, lsm, lst, lsw⟩ := st
  simp only [turnOffDevices, setMin_mainClimate, setSwitch]
  split_ifs
  · refine attempt_minSwitch inp (State.mk tt ct pm lmm lmt lsm lst lsw) _
      [] _ _ τ ?_
    intro a
    exact turnOffSecondary_minSwitch cfg
      (State.mk tt ct pm HVACMode.off lmt lsm lst lsw) inp a r τ
  · exact turnOffSecondary_minSwitch cfg
      (State.mk tt ct pm lmm lmt lsm lst lsw) inp [] r τ

theorem applyTemperature_minSwitch (cfg : Config) (st : State)
    (inp : TickInput) (r τ : ℚ) :
    ∃ τ2, applyTemperature (setMin cfg r) (setSwitch st τ) inp =
      ⟨setSwitch (applyTemperature cfg st inp).state τ2,
       (applyTemperature cfg st inp).commands,
       (applyTemperature cfg st inp).ok⟩ := by
  obtain ⟨tt, ct, pm, lmm, lmt, lsm, lst, lsw⟩ := st
  simp only [applyTemperature, computeEffectiveMode_setMin, setSwitch]
  rcases inp.sensorReading with _ | cur
  · exact ⟨τ, rfl⟩
  rcases tt with _ | target
  · exact turnOffDevices_minSwitch cfg
      (State.mk none (some cur) pm lmm lmt lsm lst lsw) inp r τ
  · exact commitMain_minSwitch cfg
      (State.mk (some target) (some cur) pm lmm lmt lsm lst lsw) inp _ _
      target r τ

theorem handleEvent_minSwitch (cfg : Config) (st : State) (e : Event)
    (r τ : ℚ) :
    ∃ τ2, handleEvent (setMin cfg r) (setSwitch st τ) e =
      ⟨setSwitch (handleEvent cfg st e).state τ2,
       (handleEvent cfg st e).commands,
       (handleEvent cfg st e).ok⟩ := by
  obtain ⟨tt, ct, pm, lmm, lmt, lsm, lst, lsw⟩ := st
  cases e with
  | tick inp =>
    exact applyTemperature_minSwitch cfg
      (State.mk tt ct pm lmm lmt lsm lst lsw) inp r τ
  | setTarget temp inp =>
    rcases temp with _ | tv
    · exact ⟨τ, rfl⟩
    · simp only [handleEvent, setSwitch]
      exact applyTemperature_minSwitch cfg
        (State.mk (some tv) ct pm lmm lmt lsm lst lsw) inp r τ
  | setPreset p inp =>
    simp only [handleEvent, setMin_heatingPresets, setMin_coolingPresets,
      setSwitch]
    split_ifs
    · exact ⟨τ, rfl⟩
    · exact applyTemperature_minSwitch cfg
        (State.mk
          (resolvePresetTarget cfg.heatingPresets cfg.coolingPresets p
            inp.sensorReading tt)
          ct p lmm lmt lsm lst lsw) inp r τ

/-- C9 (confirmed): the configured minimum runtime and the tracked
last-switch time never influence which commands are issued.  Two runs over
the same input sequence whose configurations differ only in
`min_runtime_seconds` and whose initial states differ only in the
last-switch time emit identical command sequences: the decision logic never
blocks a mode change because of the minimum-runtime guard. -/
theorem C9_min_runtime_no_influence (cfg : Config) (st : State)
    (es : List Event) (r τ : ℚ) :
    (run (setMin cfg r) (setSwitch st τ) es).2 = (run cfg st es).2 := by
  induction es generalizing st τ with
  | nil => rfl
  | cons e rest ih =>
    obtain ⟨τ2, h⟩ := handleEvent_minSwitch cfg st e r τ
    simp only [run]
    rw [h]
    simp only []
    rw [ih (handleEvent cfg st e).state τ2]

end SmartClimate
